import Mathlib

/-!
Verification of the `companion` Telegram-bot repository: a shallow embedding
of its five AI-backend clients (`gemini_client.py`, `openrouter_client.py`,
`groq_client.py`, `xai_client.py`, `rovo_client.py`) and of the helper
`split_long_message` from `bot.py`, together with theorems settling the
frozen specification claims.

Conventions of the embedding:
* Python strings are Lean `String`s; slicing `s[:n]` is by code point, so it
  is modelled by `takeStr` (take on the underlying character list).
* Python `bytes` values are `List Nat` (each entry < 256).
* The network round trip is an oracle: the (already stripped) assistant
  reply text is passed in as an explicit `reply` argument.
* Python list objects, where aliasing/mutation matters, are modelled by a
  tiny heap (`Heap`): ids index into a store of turn lists; `list(history)`
  is `Heap.alloc` of a copy, `.append` mutates one cell in place.
* Fallible Python code returns `Except PyErr _`, with one `PyErr`
  constructor per Python exception class the embedded code can raise.
-/

/-- Role of a conversation turn (`"user"` / `"assistant"`). -/
inductive Role where
  | user
  | assistant
deriving DecidableEq, Repr

/-- One provider-native content block, as built by the OpenAI-style clients:
`{"type": "text", ...}` or `{"type": "image_url", "image_url": {"url": ...}}`. -/
inductive Block where
  | text (s : String)
  | imageUrl (url : String)
deriving DecidableEq, Repr

/-- The `content` field of a history entry: either a plain string or a list
of provider-native typed blocks. -/
inductive Content where
  | str (s : String)
  | blocks (bs : List Block)
deriving DecidableEq, Repr

/-- A history entry `{"role": ..., "content": ...}`. -/
structure Turn where
  role : Role
  content : Content
deriving DecidableEq, Repr

/-- A user turn with plain-string content. -/
def userT (s : String) : Turn := ⟨Role.user, Content.str s⟩

/-- An assistant turn with plain-string content. -/
def assistantT (s : String) : Turn := ⟨Role.assistant, Content.str s⟩

/-- Whether a turn carries plain-string content (no native blocks). -/
def Turn.isStr (t : Turn) : Bool :=
  match t.content with
  | Content.str _ => true
  | Content.blocks _ => false

/-- Python slicing `s[:n]` (by code point). -/
def takeStr (s : String) (n : Nat) : String := ⟨s.data.take n⟩

/-- Python `s.startswith(pre)` (by code point; avoids the byte-level
`String.startsWith`, which the kernel cannot evaluate). -/
def startsWithS (s pre : String) : Bool := pre.data.isPrefixOf s.data

/-- Python `s.endswith(suf)` (by code point). -/
def endsWithS (s suf : String) : Bool := suf.data.isSuffixOf s.data

/-- Python `s.lower()` (ASCII-adequate, charwise). -/
def toLowerS (s : String) : String := ⟨s.data.map Char.toLower⟩

/-- Python `s.split(".")` on the character level. -/
def splitOnDot : List Char → List (List Char)
  | [] => [[]]
  | c :: rest =>
      let r := splitOnDot rest
      if c = '.' then [] :: r
      else
        match r with
        | [] => [[c]]
        | x :: xs => (c :: x) :: xs

/-- Renders `n` with thousands separators, as Python `f"{n:,}"` does. -/
def chunk3 : List Char → List Char
  | a :: b :: c :: d :: rest => a :: b :: c :: ',' :: chunk3 (d :: rest)
  | l => l

/-- Python `f"{n:,}"` for a natural number. -/
def formatComma (n : Nat) : String := ⟨(chunk3 (toString n).data.reverse).reverse⟩

/-- The standard base64 alphabet. -/
def b64Table : List Char :=
  "ABCDEFGHIJKLMNOPQRSTUVWXYZabcdefghijklmnopqrstuvwxyz0123456789+/".data

/-- Character for one 6-bit group. -/
def b64Char (n : Nat) : Char := b64Table.getD n 'A'

/-- Standard base64 of a byte list, three bytes at a time with `=` padding
(the semantics of Python `base64.b64encode(...).decode()`). -/
def base64Chunks : List Nat → List Char
  | [] => []
  | [a] => [b64Char (a / 4), b64Char (a % 4 * 16), '=', '=']
  | [a, b] => [b64Char (a / 4), b64Char (a % 4 * 16 + b / 16), b64Char (b % 16 * 4), '=']
  | a :: b :: c :: rest =>
      b64Char (a / 4) :: b64Char (a % 4 * 16 + b / 16) ::
      b64Char (b % 16 * 4 + c / 64) :: b64Char (c % 64) :: base64Chunks rest

/-- Python `base64.b64encode(bytes).decode()`. -/
def base64Encode (bs : List Nat) : String := ⟨base64Chunks bs⟩

theorem base64Chunks_length (bs : List Nat) :
    (base64Chunks bs).length = 4 * ((bs.length + 2) / 3) := by
  induction bs using base64Chunks.induct with
  | case1 => simp [base64Chunks]
  | case2 a => simp [base64Chunks]
  | case3 a b => simp [base64Chunks]
  | case4 a b c rest ih =>
      simp only [base64Chunks, List.length_cons, ih]
      omega

/-- Length of the base64 encoding: 4 characters per (started) 3-byte group. -/
theorem base64Encode_length (bs : List Nat) :
    (base64Encode bs).length = 4 * ((bs.length + 2) / 3) := by
  simpa [base64Encode, String.length] using base64Chunks_length bs

/-- Decoding `bytes.decode("utf-8", errors="replace")`, modelled on the byte
level.  Valid UTF-8 sequences decode to their code point; an invalid lead or
continuation byte becomes U+FFFD.  (Python replaces maximal invalid
subparts; the two agree on every input used in this development, and all
theorems that quantify over file bytes are parametric in the decoded text.) -/
def contB (c : Nat) : Bool := 128 ≤ c ∧ c ≤ 191

def utf8DecodeReplace : List Nat → List Char
  | [] => []
  | b :: rest =>
    if b < 128 then
      Char.ofNat b :: utf8DecodeReplace rest
    else if 194 ≤ b ∧ b ≤ 223 then
      let c := rest.headD 0
      if 1 ≤ rest.length ∧ contB c then
        Char.ofNat ((b - 192) * 64 + (c - 128)) :: utf8DecodeReplace (rest.drop 1)
      else '�' :: utf8DecodeReplace rest
    else if 224 ≤ b ∧ b ≤ 239 then
      let c := rest.headD 0
      let d := (rest.drop 1).headD 0
      if 2 ≤ rest.length ∧ contB c ∧ contB d then
        Char.ofNat ((b - 224) * 4096 + (c - 128) * 64 + (d - 128)) ::
          utf8DecodeReplace (rest.drop 2)
      else '�' :: utf8DecodeReplace rest
    else if 240 ≤ b ∧ b ≤ 244 then
      let c := rest.headD 0
      let d := (rest.drop 1).headD 0
      let e := (rest.drop 2).headD 0
      if 3 ≤ rest.length ∧ contB c ∧ contB d ∧ contB e then
        Char.ofNat ((b - 240) * 262144 + (c - 128) * 4096 + (d - 128) * 64 + (e - 128)) ::
          utf8DecodeReplace (rest.drop 3)
      else '�' :: utf8DecodeReplace rest
    else
      '�' :: utf8DecodeReplace rest
termination_by bs => bs.length
decreasing_by all_goals (simp only [List.length_cons, List.length_drop]; omega)

/-- `bytes.decode("utf-8", errors="replace")` as a `String`. -/
def utf8Decode (bs : List Nat) : String := ⟨utf8DecodeReplace bs⟩

/-- On pure ASCII byte lists the UTF-8 decoder is the bytewise map. -/
theorem utf8DecodeReplace_ascii (bs : List Nat) (h : ∀ b ∈ bs, b < 128) :
    utf8DecodeReplace bs = bs.map Char.ofNat := by
  induction bs with
  | nil => rw [utf8DecodeReplace.eq_def]; rfl
  | cons b rest ih =>
      have hb : b < 128 := h b (List.mem_cons_self b rest)
      have hrest : ∀ x ∈ rest, x < 128 := fun x hx => h x (List.mem_cons_of_mem b hx)
      rw [utf8DecodeReplace.eq_def]
      simp [hb, ih hrest]

/- ----------------------------------------------------------------- -/
/- bot.py: split_long_message                                        -/
/- ----------------------------------------------------------------- -/

/-- The `while text:` loop body of `split_long_message` (bot.py):
repeatedly take `max_length` characters off the front.  The positivity
witness `h` records the condition under which the Python loop terminates. -/
def chunkLoop (maxLength : Nat) (h : 0 < maxLength) (text : List Char) :
    List (List Char) :=
  if htext : text = [] then []
  else text.take maxLength :: chunkLoop maxLength h (text.drop maxLength)
termination_by text.length
decreasing_by
  have : 0 < text.length := List.length_pos.mpr htext
  simp only [List.length_drop]
  omega

/-- `split_long_message(text, max_length)` from bot.py: return `[text]` when
it already fits, else the chunking loop. -/
def split_long_message (text : String) (maxLength : Nat) (h : 0 < maxLength) :
    List String :=
  if text.length ≤ maxLength then [text]
  else (chunkLoop maxLength h text.data).map String.mk

theorem chunkLoop_join (maxLength : Nat) (h : 0 < maxLength) :
    ∀ n (text : List Char), text.length ≤ n →
      (chunkLoop maxLength h text).flatten = text := by
  intro n
  induction n with
  | zero =>
      intro text ht
      have : text = [] := List.eq_nil_of_length_eq_zero (Nat.le_zero.mp ht)
      subst this
      simp [chunkLoop]
  | succ n ih =>
      intro text ht
      by_cases htext : text = []
      · subst htext; simp [chunkLoop]
      · rw [chunkLoop]
        simp only [htext, dite_false, List.flatten_cons]
        have hlen : (text.drop maxLength).length ≤ n := by
          have : 0 < text.length := List.length_pos.mpr htext
          simp only [List.length_drop]
          omega
        rw [ih (text.drop maxLength) hlen, List.take_append_drop]

theorem chunkLoop_chunk_le (maxLength : Nat) (h : 0 < maxLength) :
    ∀ n (text : List Char), text.length ≤ n →
      ∀ c ∈ chunkLoop maxLength h text, c.length ≤ maxLength := by
  intro n
  induction n with
  | zero =>
      intro text ht c hc
      have : text = [] := List.eq_nil_of_length_eq_zero (Nat.le_zero.mp ht)
      subst this
      simp [chunkLoop] at hc
  | succ n ih =>
      intro text ht c hc
      by_cases htext : text = []
      · subst htext; simp [chunkLoop] at hc
      · rw [chunkLoop] at hc
        simp only [htext, dite_false, List.mem_cons] at hc
        rcases hc with rfl | hc
        · simpa using List.length_take_le maxLength text
        · have hlen : (text.drop maxLength).length ≤ n := by
            have : 0 < text.length := List.length_pos.mpr htext
            simp only [List.length_drop]
            omega
          exact ih (text.drop maxLength) hlen c hc

theorem foldl_mk_append (ys : List (List Char)) :
    ∀ acc : List Char,
      List.foldl (· ++ ·) (String.mk acc) (ys.map String.mk) =
        String.mk (acc ++ ys.flatten) := by
  induction ys with
  | nil => intro acc; simp
  | cons z zs ihz =>
      intro acc
      simp only [List.map_cons, List.foldl_cons, List.flatten_cons]
      have hmk : String.mk acc ++ String.mk z = String.mk (acc ++ z) := rfl
      rw [hmk, ihz (acc ++ z), List.append_assoc]

theorem string_join_map_mk (l : List (List Char)) :
    String.join (l.map String.mk) = String.mk l.flatten := by
  have h := foldl_mk_append l []
  simpa [String.join] using h

/-- C10: `split_long_message` returns a non-empty chunk list, every chunk is
at most `maxLength` characters, and concatenating the chunks in order gives
back the original string (lossless round-trip); bot.py calls it with the
default `max_length = 4096`. -/
theorem split_long_message_spec (text : String) (maxLength : Nat)
    (h : 0 < maxLength) :
    split_long_message text maxLength h ≠ [] ∧
    (∀ c ∈ split_long_message text maxLength h, c.length ≤ maxLength) ∧
    String.join (split_long_message text maxLength h) = text := by
  unfold split_long_message
  by_cases hle : text.length ≤ maxLength
  · simp only [hle, if_true]
    refine ⟨by simp, ?_, ?_⟩
    · intro c hc
      simp only [List.mem_singleton] at hc
      subst hc; exact hle
    · simp [String.join]
  · simp only [hle, if_false]
    have hjoin := chunkLoop_join maxLength h text.data.length text.data (Nat.le_refl _)
    have hchunks := chunkLoop_chunk_le maxLength h text.data.length text.data (Nat.le_refl _)
    refine ⟨?_, ?_, ?_⟩
    · intro hnil
      have hempty : text.data ≠ [] := by
        intro he
        have : text.length = 0 := by simp [String.length, he]
        omega
      rw [chunkLoop] at hnil
      simp [hempty] at hnil
    · intro c hc
      simp only [List.mem_map] at hc
      obtain ⟨l, hl, rfl⟩ := hc
      simpa [String.length] using hchunks l hl
    · rw [string_join_map_mk, hjoin]

/-- C10 witness: the round-trip at a concrete string and the default limit. -/
theorem split_long_message_spec_witness :
    (0 : Nat) < 4096 ∧
    (split_long_message "hello" 4096 (by decide) ≠ [] ∧
     (∀ c ∈ split_long_message "hello" 4096 (by decide), c.length ≤ 4096) ∧
     String.join (split_long_message "hello" 4096 (by decide)) = "hello") :=
  ⟨by decide, split_long_message_spec "hello" 4096 (by decide)⟩

/- ----------------------------------------------------------------- -/
/- A tiny heap of Python list objects (for mutation claims)          -/
/- ----------------------------------------------------------------- -/

/-- Store of Python list objects holding conversation turns; an id is an
index into the store. -/
abbrev Heap := List (List Turn)

/-- `list(v)`: allocate a fresh list object; returns new heap and fresh id. -/
def Heap.alloc (h : Heap) (v : List Turn) : Heap × Nat := (h ++ [v], h.length)

/-- Read the list object with id `i`. -/
def Heap.read (h : Heap) (i : Nat) : List Turn := h.getD i []

/-- `obj.append(t)`: in-place append on the list object with id `i`. -/
def Heap.push (h : Heap) (i : Nat) (t : Turn) : Heap := h.set i (h.read i ++ [t])

theorem heap_set_concat (h : Heap) (v w : List Turn) :
    (h ++ [v]).set h.length w = h ++ [w] := by
  rw [List.set_append]
  simp

theorem heap_read_concat (h : Heap) (v : List Turn) :
    (h ++ [v]).getD h.length [] = v := by
  simp [List.getD_eq_getElem?_getD, List.getElem?_concat_length]

/- ----------------------------------------------------------------- -/
/- gemini_client.py                                                  -/
/- ----------------------------------------------------------------- -/

/-- `GeminiClient.chat` (gemini_client.py): copy the history, send the
message (the Gemini-format history is built read-only from the copy and the
network reply `response.text.strip()` is the oracle `reply`), then append
the user and assistant turns to the copy and return it. -/
def geminiChat (h : Heap) (hist : Nat) (msg reply : String) :
    String × Nat × Heap :=
  let a := h.alloc (h.read hist)
  let h2 := a.1.push a.2 (userT msg)
  let h3 := h2.push a.2 (assistantT reply)
  (reply, a.2, h3)

/-- `GeminiClient.chat_with_file` at the level of the returned history: the
multimodal `parts` built by `_build_parts` go only to the network; the
history copy receives a plain-text summary of the upload. -/
def geminiChatWithFile (msg name : String) (history : List Turn)
    (reply : String) : String × List Turn :=
  (reply,
   history ++ [userT ("[Uploaded file: " ++ name ++ "] " ++ msg),
               assistantT reply])

theorem heap_push_concat (h : Heap) (v : List Turn) (t : Turn) :
    (h ++ [v]).push h.length t = h ++ [v ++ [t]] := by
  unfold Heap.push Heap.read
  rw [heap_read_concat, heap_set_concat]

theorem geminiChat_heap (h : Heap) (hist : Nat) (msg reply : String) :
    (geminiChat h hist msg reply).2.2 =
      h ++ [h.read hist ++ [userT msg, assistantT reply]] ∧
    (geminiChat h hist msg reply).2.1 = h.length := by
  refine ⟨?_, rfl⟩
  show ((h ++ [h.read hist]).push h.length (userT msg)).push h.length
      (assistantT reply) = _
  rw [heap_push_concat, heap_push_concat]
  simp

/- ----------------------------------------------------------------- -/
/- openrouter_client.py                                              -/
/- ----------------------------------------------------------------- -/

/-- The hard-coded free-model priority list of openrouter_client.py. -/
def PREFERRED_FREE_MODELS : List String :=
  ["meta-llama/llama-3.3-70b-instruct:free",
   "meta-llama/llama-3.1-8b-instruct:free",
   "mistralai/mistral-7b-instruct:free",
   "google/gemma-2-9b-it:free",
   "qwen/qwen-2-7b-instruct:free"]

/-- `OpenRouterClient.__init__` model resolution: the sentinel `"auto"` maps
to the first priority entry; anything else is used verbatim.  No catalog
query is performed. -/
def openRouterResolveModel (model : String) : String :=
  if model = "auto" then PREFERRED_FREE_MODELS[0]! else model

/-- `OpenRouterClient.chat`: copy, append user turn, call, append reply. -/
def openRouterChat (msg : String) (history : List Turn) (reply : String) :
    String × List Turn :=
  (reply, history ++ [userT msg, assistantT reply])

/-- `OpenRouterClient.chat_with_file`: image attachments become a native
block list (text block + `image_url` data URI) stored as the user turn;
all other attachments are decoded (UTF-8, `errors="replace"`, so the
`except` fallback is unreachable), truncated to 12000 characters with an
original-length marker, and stored as plain text. -/
def openRouterChatWithFile (msg name : String) (bytes : List Nat)
    (mime : String) (history : List Turn) (reply : String) :
    String × List Turn :=
  if mime ≠ "" ∧ startsWithS mime "image/" then
    let b64 := base64Encode bytes
    let content := Content.blocks
      [Block.text msg,
       Block.imageUrl ("data:" ++ mime ++ ";base64," ++ b64)]
    (reply, history ++ [⟨Role.user, content⟩, assistantT reply])
  else
    let text := utf8Decode bytes
    let combined :=
      msg ++ "\n\n--- File: " ++ name ++ " ---\n" ++ takeStr text 12000
    let combined :=
      if text.length > 12000 then
        combined ++ "\n\n[... file truncated, " ++ toString text.length ++
          " chars total ...]"
      else combined
    (reply, history ++ [userT combined, assistantT reply])

theorem heap_read_append_old (h : Heap) (v : List Turn) (i : Nat)
    (hi : i < h.length) : (h ++ [v]).read i = h.read i := by
  unfold Heap.read
  rw [List.getD_eq_getElem?_getD, List.getD_eq_getElem?_getD,
    List.getElem?_append]
  simp [hi]

theorem openRouterChatWithFile_snd (msg name : String) (bytes : List Nat)
    (mime : String) (history : List Turn) (reply : String) :
    ∃ u : Turn, u.role = Role.user ∧
      (openRouterChatWithFile msg name bytes mime history reply).2 =
        history ++ [u, assistantT reply] := by
  unfold openRouterChatWithFile
  by_cases hc : mime ≠ "" ∧ startsWithS mime "image/"
  · rw [if_pos hc]
    exact ⟨⟨Role.user, Content.blocks
      [Block.text msg,
       Block.imageUrl ("data:" ++ mime ++ ";base64," ++ base64Encode bytes)]⟩,
      rfl, rfl⟩
  · rw [if_neg hc]
    exact ⟨userT (if (utf8Decode bytes).length > 12000 then
        msg ++ "\n\n--- File: " ++ name ++ " ---\n" ++
          takeStr (utf8Decode bytes) 12000 ++ "\n\n[... file truncated, " ++
          toString (utf8Decode bytes).length ++ " chars total ...]"
      else msg ++ "\n\n--- File: " ++ name ++ " ---\n" ++
          takeStr (utf8Decode bytes) 12000), rfl, rfl⟩

/-- C1: `converse` (`chat` / `chat_with_file`) does not mutate the history
list passed in — in the heap model of `GeminiClient.chat`, every
pre-existing list object reads the same after the call — and the returned
history equals the input history followed by exactly one user turn and one
assistant turn (user turn first), so its length is `len(input) + 2`; the
same holds for `GeminiClient.chat_with_file`, `OpenRouterClient.chat` and
`OpenRouterClient.chat_with_file`, which operate on a fresh copy of the
list of the caller. -/
theorem converse_history_append_two
    (h : Heap) (hist : Nat) (msg reply : String)
    (gmsg gname greply : String) (ghistory : List Turn)
    (omsg oreply : String) (ohistory : List Turn)
    (fmsg fname : String) (fbytes : List Nat) (fmime : String)
    (fhistory : List Turn) (freply : String)
    (hhist : hist < h.length) :
    (∀ i, i < h.length →
        ((geminiChat h hist msg reply).2.2).read i = h.read i) ∧
    ((geminiChat h hist msg reply).2.2).read (geminiChat h hist msg reply).2.1 =
        h.read hist ++ [userT msg, assistantT reply] ∧
    (geminiChatWithFile gmsg gname ghistory greply).2 =
        ghistory ++ [userT ("[Uploaded file: " ++ gname ++ "] " ++ gmsg),
                     assistantT greply] ∧
    (openRouterChat omsg ohistory oreply).2 =
        ohistory ++ [userT omsg, assistantT oreply] ∧
    (∃ u : Turn, u.role = Role.user ∧
      (openRouterChatWithFile fmsg fname fbytes fmime fhistory freply).2 =
        fhistory ++ [u, assistantT freply]) := by
  obtain ⟨hheap, hid⟩ := geminiChat_heap h hist msg reply
  refine ⟨?_, ?_, rfl, rfl, ?_⟩
  · intro i hi
    rw [hheap]
    exact heap_read_append_old h _ i hi
  · rw [hheap, hid]
    show (h ++ [h.read hist ++ [userT msg, assistantT reply]]).getD h.length [] = _
    exact heap_read_concat h _
  · exact openRouterChatWithFile_snd fmsg fname fbytes fmime fhistory freply

/-- C1 witness: the "Hello" scenario — empty history, concrete reply. -/
theorem converse_history_append_two_witness :
    (0 : Nat) < ([[]] : Heap).length ∧
    ((∀ i, i < ([[]] : Heap).length →
        ((geminiChat [[]] 0 "Hello" "Hi!").2.2).read i = Heap.read [[]] i) ∧
     ((geminiChat [[]] 0 "Hello" "Hi!").2.2).read
         (geminiChat [[]] 0 "Hello" "Hi!").2.1 =
        Heap.read [[]] 0 ++ [userT "Hello", assistantT "Hi!"] ∧
     (geminiChatWithFile "m" "f.txt" [] "r").2 =
        [] ++ [userT ("[Uploaded file: " ++ "f.txt" ++ "] " ++ "m"),
               assistantT "r"] ∧
     (openRouterChat "o" [] "r2").2 = [] ++ [userT "o", assistantT "r2"] ∧
     (∃ u : Turn, u.role = Role.user ∧
        (openRouterChatWithFile "fm" "a.png" [1, 2, 3] "image/png" [] "fr").2 =
          [] ++ [u, assistantT "fr"])) :=
  ⟨by decide,
   converse_history_append_two [[]] 0 "Hello" "Hi!" "m" "f.txt" "r" []
     "o" "r2" [] "fm" "a.png" [1, 2, 3] "image/png" [] "fr" (by decide)⟩

/- ----------------------------------------------------------------- -/
/- groq_client.py                                                    -/
/- ----------------------------------------------------------------- -/

/-- groq_client.py `PREFERRED_MODELS`, in priority order. -/
def GROQ_PREFERRED_MODELS : List String :=
  ["llama-3.3-70b-versatile",
   "llama-3.1-70b-versatile",
   "llama-3.1-8b-instant",
   "mixtral-8x7b-32768",
   "gemma2-9b-it"]

/-- groq_client.py `IMAGE_MIME_TYPES`. -/
def GROQ_IMAGE_MIME_TYPES : List String :=
  ["image/jpeg", "image/png", "image/gif", "image/webp"]

/-- groq_client.py `VISION_MODELS`. -/
def GROQ_VISION_MODELS : List String :=
  ["llama-3.2-90b-vision-preview", "llama-3.2-11b-vision-preview"]

/-- The `available`-catalog branch of `_pick_model` (groq_client.py): the
catalog argument is the iteration order of the Python set built from
`client.models.list().data`; `Except.error` is the `except` branch of the
`try`.  The no-priority-match fallback is `next(iter(available))` — the
FIRST element in iteration order, whatever it is. -/
def groqAutoPick : Except String (List String) → String
  | Except.error _ => GROQ_PREFERRED_MODELS[0]!
  | Except.ok available =>
      match GROQ_PREFERRED_MODELS.find? (fun m => available.contains m) with
      | some m => m
      | none =>
          match available with
          | [] => GROQ_PREFERRED_MODELS[0]!
          | m :: _ => m

/-- `_pick_model(api_key, preferred)` (groq_client.py): a configured model
other than (case-insensitive) `"auto"` is used verbatim; otherwise the
catalog is consulted. -/
def groqPickModel (preferred : Option String)
    (catalog : Except String (List String)) : String :=
  match preferred with
  | some p => if p ≠ "" ∧ toLowerS p ≠ "auto" then p else groqAutoPick catalog
  | none => groqAutoPick catalog

/-- A `GroqClient` instance: the fields set by `__init__` that the embedded
methods read.  No method of the class ever assigns `self._model` again. -/
structure GroqClientS where
  apiKey : String
  model : String
deriving DecidableEq, Repr

/-- `GroqClient.__init__(api_key, model)`: model resolution happens here,
once, against the catalog answer observed at construction time. -/
def mkGroqClient (apiKey model : String)
    (catalog : Except String (List String)) : GroqClientS :=
  { apiKey := apiKey, model := groqPickModel (some model) catalog }

/-- `GroqClient.chat`: copy, append user turn, call `_call_groq` (oracle
`reply`), append assistant turn.  The client state is returned unchanged —
the method body contains no assignment to `self._model`. -/
def groqChatC (c : GroqClientS) (msg : String) (history : List Turn)
    (reply : String) : String × List Turn × GroqClientS :=
  (reply, history ++ [userT msg, assistantT reply], c)

/-- Iterate a sequence of `chat` calls (message, history, oracle reply). -/
def groqRun (c : GroqClientS) (calls : List (String × List Turn × String)) :
    GroqClientS :=
  calls.foldl (fun acc x => (groqChatC acc x.1 x.2.1 x.2.2).2.2) c

/-- Modelled stdlib: `pathlib.PurePath(name).suffix` — the final extension
including its dot, empty for dotless names, hidden files and trailing dots
(plain file names only; no directory separators). -/
def pathSuffix (name : String) : String :=
  let parts := splitOnDot name.data
  if parts.length ≤ 1 then ""
  else
    let last := parts.getLastD []
    if last = [] then ""
    else if parts.length = 2 ∧ parts.headD ['x'] = [] then ""
    else "." ++ String.mk last

/-- groq_client.py `text_extensions` (in `_build_file_content`). -/
def GROQ_TEXT_EXTENSIONS : List String :=
  [".txt", ".md", ".py", ".js", ".ts", ".java", ".c", ".cpp",
   ".go", ".rs", ".rb", ".php", ".sh", ".bash", ".zsh",
   ".json", ".yaml", ".yml", ".toml", ".xml", ".csv", ".sql",
   ".html", ".css", ".scss", ".log", ".rst", ".ini", ".cfg"]

/-- `GroqClient._build_file_content` (groq_client.py).  The two
`try/except` decode fallbacks are unreachable because
`decode("utf-8", errors="replace")` never raises, so only the `try` bodies
are modelled. -/
def groqBuildFileContent (model msg name : String) (bytes : List Nat)
    (mime : String) : Content :=
  if mime ∈ GROQ_IMAGE_MIME_TYPES ∧ model ∈ GROQ_VISION_MODELS then
    let b64 := base64Encode bytes
    Content.blocks
      [Block.imageUrl ("data:" ++ mime ++ ";base64," ++ b64),
       Block.text msg]
  else
    let ext := toLowerS (pathSuffix name)
    if ext ∈ GROQ_TEXT_EXTENSIONS ∨ startsWithS mime "text/" then
      Content.str (msg ++ "\n\n--- File: " ++ name ++ " ---\n```\n" ++
        utf8Decode bytes ++ "\n```")
    else if mime ∈ GROQ_IMAGE_MIME_TYPES then
      let b64 := base64Encode bytes
      Content.str (msg ++ "\n\n[Image file: " ++ name ++ "]\ndata:" ++ mime ++
        ";base64," ++ takeStr b64 500 ++ "... (truncated for non-vision model)\n" ++
        "Please note: this model doesn\u0027t support images natively. " ++
        "Describe what you\u0027d like to know about this image.")
    else
      let snippet := bytes.take 30000
      let note := if bytes.length > 30000 then
          "\n[File truncated — showing first 30000 bytes]" else ""
      Content.str (msg ++ "\n\n--- File: " ++ name ++ " (" ++ mime ++
        ") ---\n" ++ utf8Decode snippet ++ note)

/-- `GroqClient.chat_with_file`: copy, append the (possibly multimodal)
content as the user turn, call the network, then REPLACE that last turn
with a plain-text summary (`history[-1] = ...`) before appending the
assistant turn. -/
def groqChatWithFile (c : GroqClientS) (msg name : String) (bytes : List Nat)
    (mime : String) (history : List Turn) (reply : String) :
    String × List Turn :=
  let content := groqBuildFileContent c.model msg name bytes mime
  let h1 := history ++ [⟨Role.user, content⟩]
  let h2 := h1.set (h1.length - 1) (userT (msg ++ "\n[File: " ++ name ++ "]"))
  (reply, h2 ++ [assistantT reply])

/- ----------------------------------------------------------------- -/
/- xai_client.py                                                     -/
/- ----------------------------------------------------------------- -/

/-- xai_client.py `PREFERRED_MODELS`. -/
def XAI_PREFERRED_MODELS : List String :=
  ["grok-2-vision-1212", "grok-2-1212", "grok-2-mini-1212"]

/-- xai_client.py `VISION_MODELS`. -/
def XAI_VISION_MODELS : List String := ["grok-2-vision-1212"]

/-- `XAIClient._pick_best_model` (xai_client.py): first priority-list match
against the catalog; otherwise `sorted(available)[0]`; on an empty catalog
or a failed query, the hard-coded `"grok-2-1212"`. -/
def xaiPickBestModel (catalog : Except String (List String)) : String :=
  match catalog with
  | Except.error _ => "grok-2-1212"
  | Except.ok available =>
      match XAI_PREFERRED_MODELS.find? (fun m => available.contains m) with
      | some m => m
      | none =>
          match available.mergeSort (· ≤ ·) with
          | [] => "grok-2-1212"
          | m :: _ => m

/-- An `XAIClient` instance (the fields the embedded methods read).  No
method ever assigns `self._model` after `__init__`. -/
structure XAIClientS where
  apiKey : String
  model : String
deriving DecidableEq, Repr

/-- `XAIClient.__init__`: `"auto"` (exact match) triggers the one-time
catalog query; anything else is used verbatim. -/
def mkXAIClient (apiKey model : String)
    (catalog : Except String (List String)) : XAIClientS :=
  { apiKey := apiKey,
    model := if model = "auto" then xaiPickBestModel catalog else model }

/-- `XAIClient.chat`: copy, append user turn, call (oracle), append reply. -/
def xaiChat (msg : String) (history : List Turn) (reply : String) :
    String × List Turn :=
  (reply, history ++ [userT msg, assistantT reply])

/-- xai_client.py text-file extension tuple in `chat_with_file`. -/
def XAI_TEXT_EXTENSIONS : List String :=
  [".txt", ".py", ".js", ".ts", ".java", ".c", ".cpp",
   ".go", ".rs", ".rb", ".php", ".sh", ".md", ".rst",
   ".csv", ".json", ".xml", ".yaml", ".toml", ".sql",
   ".html", ".css", ".log"]

/-- `XAIClient.chat_with_file` (xai_client.py).  Vision-capable models get a
native block list kept in history; a non-vision model gets a plain-text
limitation notice built WITHOUT the image bytes; text files are embedded
truncated to 12000 characters; anything else gets an unsupported-type
notice.  The `except` decode fallback is unreachable
(`errors="replace"`). -/
def xaiChatWithFile (c : XAIClientS) (msg name : String) (bytes : List Nat)
    (mime : String) (history : List Turn) (reply : String) :
    String × List Turn :=
  if startsWithS mime "image/" then
    if c.model ∈ XAI_VISION_MODELS then
      let b64 := base64Encode bytes
      let dataUri := "data:" ++ mime ++ ";base64," ++ b64
      (reply, history ++
        [⟨Role.user, Content.blocks [Block.imageUrl dataUri, Block.text msg]⟩,
         assistantT reply])
    else
      xaiChat (msg ++ "\n\n[Image \u0027" ++ name ++
        "\u0027 uploaded but current model \u0027" ++ c.model ++
        "\u0027 does not support vision. Switch to grok-2-vision-1212.]")
        history reply
  else if startsWithS mime "text/" ∨
      XAI_TEXT_EXTENSIONS.any (fun ext => endsWithS name ext) then
    xaiChat (msg ++ "\n\n**File: " ++ name ++ "**\n```\n" ++
      takeStr (utf8Decode bytes) 12000 ++ "\n```") history reply
  else
    xaiChat (msg ++ "\n\n[Note: File \u0027" ++ name ++ "\u0027 (" ++ mime ++
      ") is not supported. Please share as text or image.]") history reply

/-- `XAIClient.chat` with the client state threaded: the method reads
`self._model` for the request but contains no assignment to it. -/
def xaiChatC (c : XAIClientS) (msg : String) (history : List Turn)
    (reply : String) : String × List Turn × XAIClientS :=
  (reply, history ++ [userT msg, assistantT reply], c)

/-- Iterate a sequence of `XAIClient.chat` calls. -/
def xaiRun (c : XAIClientS) (calls : List (String × List Turn × String)) :
    XAIClientS :=
  calls.foldl (fun acc x => (xaiChatC acc x.1 x.2.1 x.2.2).2.2) c

/- ----------------------------------------------------------------- -/
/- gemini_client.py: _build_parts                                    -/
/- ----------------------------------------------------------------- -/

/-- gemini_client.py / rovo_client.py `TEXT_MIME_PREFIXES` (identical). -/
def TEXT_MIME_PREFIXES : List String := ["text/"]

/-- gemini_client.py / rovo_client.py `TEXT_MIME_TYPES` (identical sets). -/
def TEXT_MIME_TYPES : List String :=
  ["application/json", "application/xml", "application/javascript",
   "application/typescript", "application/x-python", "application/x-sh",
   "application/x-yaml", "application/toml", "application/csv",
   "application/x-ndjson"]

/-- gemini_client.py `IMAGE_MIME_TYPES`. -/
def GEMINI_IMAGE_MIME_TYPES : List String :=
  ["image/jpeg", "image/png", "image/gif", "image/webp",
   "image/heic", "image/heif"]

/-- gemini_client.py `DOCUMENT_MIME_TYPES`. -/
def GEMINI_DOCUMENT_MIME_TYPES : List String := ["application/pdf"]

/-- `_is_text_mime` (identical in gemini_client.py and rovo_client.py). -/
def isTextMime (mime : String) : Bool :=
  if mime = "" then false
  else if TEXT_MIME_PREFIXES.any (fun p => startsWithS mime p) then true
  else mime ∈ TEXT_MIME_TYPES

/-- The code/markup extension set shared verbatim by `_build_parts`
(gemini_client.py) and `_build_file_message` (rovo_client.py). -/
def CODE_EXTENSIONS : List String :=
  ["py", "js", "ts", "java", "c", "cpp", "h", "hpp", "cs", "go",
   "rb", "rs", "swift", "kt", "sh", "bash", "zsh", "fish",
   "yaml", "yml", "toml", "ini", "cfg", "conf",
   "md", "rst", "txt", "log", "csv", "json", "xml", "html", "css",
   "sql", "r", "m", "lua", "pl", "php"]

/-- Python `file_name.rsplit(".", 1)[-1].lower() if "." in file_name
else ""`. -/
def lastExt (name : String) : String :=
  if name.data.contains '.' then
    toLowerS (String.mk ((splitOnDot name.data).getLastD []))
  else ""

/-- One Gemini message part: a plain prompt string or an inline-bytes part
`{"mime_type": ..., "data": ...}`. -/
inductive GPart where
  | text (s : String)
  | inline (mime : String) (data : List Nat)
deriving DecidableEq, Repr

/-- `MAX_FILE_TEXT_CHARS` (both gemini_client.py and rovo_client.py). -/
def MAX_FILE_TEXT_CHARS : Nat := 30000

/-- The truncation marker `_build_parts` appends (gemini_client.py); it
names the 30000-character ceiling, not the original length. -/
def geminiTruncMarker : String :=
  "\n\n[... truncated — exceeded 30000 chars ...]"

/-- `GeminiClient._build_parts` (gemini_client.py).  The latin-1 `except`
fallback is unreachable (`errors="replace"` never raises). -/
def geminiBuildParts (msg name : String) (bytes : List Nat) (mime : String) :
    List GPart :=
  let ext := lastExt name
  if isTextMime mime ∨ ext ∈ CODE_EXTENSIONS then
    let text := utf8Decode bytes
    let text :=
      if text.length > MAX_FILE_TEXT_CHARS then
        takeStr text MAX_FILE_TEXT_CHARS ++ geminiTruncMarker
      else text
    [GPart.text (msg ++ "\n\n--- FILE: " ++ name ++ " ---\n```\n" ++
      text ++ "\n```")]
  else if mime ∈ GEMINI_IMAGE_MIME_TYPES then
    [GPart.text (if msg ≠ "" then msg else "Please analyse this image: " ++ name),
     GPart.inline mime bytes]
  else if mime ∈ GEMINI_DOCUMENT_MIME_TYPES then
    [GPart.text (if msg ≠ "" then msg else "Please analyse this document: " ++ name),
     GPart.inline mime bytes]
  else
    let b64 := base64Encode bytes
    if b64.length > 500000 then
      [GPart.text (msg ++ "\n\n⚠️ The file \u0027" ++ name ++
        "\u0027 is too large to send (" ++ formatComma bytes.length ++
        " bytes). Please try a smaller file.")]
    else
      [GPart.text (msg ++ "\n\nThe user attached a file named \u0027" ++ name ++
        "\u0027 (MIME type: " ++ mime ++ ").\nFile content (base64):\n" ++ b64)]

/- ----------------------------------------------------------------- -/
/- rovo_client.py: _build_file_message                               -/
/- ----------------------------------------------------------------- -/

/-- `RovoDevClient._build_file_message` (rovo_client.py).  Text-like files
are embedded with a ceiling-naming truncation marker; other files become a
base64 data URI unless the URI exceeds 500000 characters, in which case a
textual size refusal naming the byte count is returned. -/
def rovoBuildFileMessage (msg name : String) (bytes : List Nat)
    (mime : String) : String :=
  let ext := lastExt name
  if isTextMime mime ∨ ext ∈ CODE_EXTENSIONS then
    let text := utf8Decode bytes
    let text :=
      if text.length > MAX_FILE_TEXT_CHARS then
        takeStr text MAX_FILE_TEXT_CHARS ++
          "\n\n[... truncated — file exceeded 30000 characters ...]"
      else text
    msg ++ "\n\n--- FILE: " ++ name ++ " ---\n```\n" ++ text ++ "\n```"
  else
    let b64 := base64Encode bytes
    let dataUri := "data:" ++ mime ++ ";base64," ++ b64
    if dataUri.length > 500000 then
      msg ++ "\n\n⚠️ The file <" ++ name ++ "> is too large to send in full (" ++
        formatComma bytes.length ++ " bytes). Please try a smaller file."
    else
      msg ++ "\n\nThe user has attached a file named \u0027" ++ name ++
        "\u0027 (MIME type: " ++ mime ++
        ").\nFile content (base64 data-URI):\n" ++ dataUri

/-- `RovoDevClient.chat_with_file` at the level of the returned history:
the combined message is a plain string. -/
def rovoChatWithFile (msg name : String) (bytes : List Nat) (mime : String)
    (history : List Turn) (reply : String) : String × List Turn :=
  (reply, history ++ [userT (rovoBuildFileMessage msg name bytes mime),
                      assistantT reply])

/- ----------------------------------------------------------------- -/
/- rovo_client.py: response parsing (Json model, Python dynamics)    -/
/- ----------------------------------------------------------------- -/

/-- A parsed JSON value — the possible results of `response.json()`. -/
inductive Json where
  | null
  | bool (b : Bool)
  | num (n : Int)
  | str (s : String)
  | arr (xs : List Json)
  | obj (fields : List (String × Json))

/-- The Python exception classes the embedded code can raise. -/
inductive PyErr where
  | runtimeError (msg : String)
  | typeError (msg : String)
  | keyError (msg : String)
  | indexError (msg : String)
  | attributeError (msg : String)
deriving DecidableEq, Repr

/-- The exception class — the Python notion of an error "kind". -/
def PyErr.kind : PyErr → String
  | .runtimeError _ => "RuntimeError"
  | .typeError _ => "TypeError"
  | .keyError _ => "KeyError"
  | .indexError _ => "IndexError"
  | .attributeError _ => "AttributeError"

/-- Substring test on character lists (Python `in` on strings). -/
def subOf (needle : List Char) : List Char → Bool
  | [] => needle.isEmpty
  | c :: rest => needle.isPrefixOf (c :: rest) || subOf needle rest

/-- First-occurrence lookup in a JSON object (Python dict access). -/
def lookupField : List (String × Json) → String → Option Json
  | [], _ => none
  | (k, v) :: rest, key => if k = key then some v else lookupField rest key

/-- Python truthiness of a JSON value. -/
def truthy : Json → Bool
  | .null => false
  | .bool b => b
  | .num n => n ≠ 0
  | .str s => s ≠ ""
  | .arr xs => ¬xs.isEmpty
  | .obj fs => ¬fs.isEmpty

/-- Python `key in data` for a string key: dict-key membership, list
membership (only string elements can equal a string), substring test on
strings; a TypeError on non-iterables. -/
def pyContains (data : Json) (key : String) : Except PyErr Bool :=
  match data with
  | .obj fs => .ok (lookupField fs key).isSome
  | .arr xs => .ok (xs.any fun x => match x with
      | .str s => s = key
      | _ => false)
  | .str s => .ok (subOf key.data s.data)
  | _ => .error (.typeError "argument is not iterable")

/-- Python `data[key]` for a string key. -/
def pySubscriptKey (data : Json) (key : String) : Except PyErr Json :=
  match data with
  | .obj fs =>
      match lookupField fs key with
      | some v => .ok v
      | none => .error (.keyError key)
  | .arr _ => .error (.typeError "list indices must be integers or slices, not str")
  | .str _ => .error (.typeError "string indices must be integers")
  | _ => .error (.typeError "object is not subscriptable")

/-- Python `data[0]`. -/
def pySubscript0 : Json → Except PyErr Json
  | .arr [] => .error (.indexError "list index out of range")
  | .arr (x :: _) => .ok x
  | .str s =>
      match s.data with
      | [] => .error (.indexError "string index out of range")
      | c :: _ => .ok (.str (String.mk [c]))
  | .obj _ => .error (.keyError "0")
  | _ => .error (.typeError "object is not subscriptable")

/-- Python `m.get(key, default)`: only dicts have `.get`. -/
def pyGetMethod (m : Json) (key : String) (dflt : Json) : Except PyErr Json :=
  match m with
  | .obj fs => .ok ((lookupField fs key).getD dflt)
  | _ => .error (.attributeError "object has no attribute get")

mutual

/-- Python `repr` of a parsed-JSON value (string escaping elided; the
values this development evaluates it on contain no quotes). -/
def pyRepr : Json → String
  | .null => "None"
  | .bool true => "True"
  | .bool false => "False"
  | .num n => toString n
  | .str s => "\u0027" ++ s ++ "\u0027"
  | .arr xs => "[" ++ pyReprList xs ++ "]"
  | .obj fs => "\u007B" ++ pyReprFields fs ++ "\u007D"

def pyReprList : List Json → String
  | [] => ""
  | [x] => pyRepr x
  | x :: rest => pyRepr x ++ ", " ++ pyReprList rest

def pyReprFields : List (String × Json) → String
  | [] => ""
  | [(k, v)] => "\u0027" ++ k ++ "\u0027: " ++ pyRepr v
  | (k, v) :: rest =>
      "\u0027" ++ k ++ "\u0027: " ++ pyRepr v ++ ", " ++ pyReprFields rest

end

/-- Python `str()` of a parsed-JSON value: identity on strings, `repr`
otherwise. -/
def pyStr : Json → String
  | .str s => s
  | j => pyRepr j

/-- JSON string escaping for `json.dumps` (quotes, backslashes and
newlines; other escapes elided as above). -/
def jsonEscape (s : String) : String :=
  ⟨s.data.foldr (fun c acc =>
    if c = '"' then '\\' :: '"' :: acc
    else if c = '\\' then '\\' :: '\\' :: acc
    else if c = '\n' then '\\' :: 'n' :: acc
    else c :: acc) []⟩

/-- `n` spaces. -/
def indentSp (n : Nat) : String := ⟨List.replicate n ' '⟩

mutual

/-- `json.dumps(data, indent=2)` at nesting level `lvl`. -/
def jsonDumps2 (lvl : Nat) : Json → String
  | .null => "null"
  | .bool true => "true"
  | .bool false => "false"
  | .num n => toString n
  | .str s => "\"" ++ jsonEscape s ++ "\""
  | .arr [] => "[]"
  | .arr xs => "[\n" ++ jsonDumpsArr lvl xs ++ "\n" ++ indentSp (2 * lvl) ++ "]"
  | .obj [] => "\u007B\u007D"
  | .obj fs =>
      "\u007B\n" ++ jsonDumpsObj lvl fs ++ "\n" ++ indentSp (2 * lvl) ++ "\u007D"

def jsonDumpsArr (lvl : Nat) : List Json → String
  | [] => ""
  | [x] => indentSp (2 * (lvl + 1)) ++ jsonDumps2 (lvl + 1) x
  | x :: rest =>
      indentSp (2 * (lvl + 1)) ++ jsonDumps2 (lvl + 1) x ++ ",\n" ++
        jsonDumpsArr lvl rest

def jsonDumpsObj (lvl : Nat) : List (String × Json) → String
  | [] => ""
  | [(k, v)] =>
      indentSp (2 * (lvl + 1)) ++ "\"" ++ jsonEscape k ++ "\": " ++
        jsonDumps2 (lvl + 1) v
  | (k, v) :: rest =>
      indentSp (2 * (lvl + 1)) ++ "\"" ++ jsonEscape k ++ "\": " ++
        jsonDumps2 (lvl + 1) v ++ ",\n" ++ jsonDumpsObj lvl rest

end

/-- `json.dumps(data, indent=2)` — the final fallback of
`_parse_response`. -/
def jsonDumps (data : Json) : String := jsonDumps2 0 data

theorem lookupField_sizeOf {fs : List (String × Json)} {key : String}
    {v : Json} (h : lookupField fs key = some v) : sizeOf v < sizeOf fs := by
  induction fs with
  | nil => simp [lookupField] at h
  | cons p rest ih =>
      obtain ⟨k, w⟩ := p
      by_cases hk : k = key
      · rw [lookupField, if_pos hk] at h
        cases h
        simp
        omega
      · rw [lookupField, if_neg hk] at h
        have := ih h
        simp
        omega

/-- Whether a JSON value may be returned from `parts.append(...)` without
later breaking `"".join(parts)` — i.e. is a string. -/
def asStr : Json → Option String
  | .str s => some s
  | _ => none

/-- All parts as strings, or `none` if any part is not a string. -/
def allStrs : List Json → Option (List String)
  | [] => some []
  | j :: rest =>
      match asStr j, allStrs rest with
      | some s, some ss => some (s :: ss)
      | _, _ => none

/-- Python `"".join(parts)`: concatenation if every part is a string, a
TypeError otherwise. -/
def pyJoin (parts : List Json) : Except PyErr String :=
  match allStrs parts with
  | some ss => .ok (String.join ss)
  | none => .error (.typeError "sequence item: expected str instance")

/-- The direct `text`-part contribution of one ADF block: present when the
block declares `type == "text"`, defaulting to the empty string. -/
def blockTextPart (fs : List (String × Json)) : List Json :=
  if (match lookupField fs "type" with
      | some (.str t) => t == "text"
      | _ => false) then
    [(lookupField fs "text").getD (.str "")]
  else []

/-- The `parts` list built by `_extract_text_from_adf` (rovo_client.py)
over a list of blocks: a dict block with `type == "text"` contributes its
`text` field (default `""`); a dict block with a list-valued `content`
field contributes the recursively joined text of that list; non-dict
blocks are skipped.  Inner joins happen during the recursion, exactly as
in the Python recursive call. -/
def blocksParts (blocks : List Json) : Except PyErr (List Json) :=
  match blocks with
  | [] => .ok []
  | block :: rest =>
    match block with
    | .obj fs =>
        let p1 : List Json := blockTextPart fs
        match hcontent : lookupField fs "content" with
        | some (.arr l) =>
            match blocksParts l with
            | .error e => .error e
            | .ok ps =>
                match pyJoin ps with
                | .error e => .error e
                | .ok s =>
                    match blocksParts rest with
                    | .error e => .error e
                    | .ok qs => .ok (p1 ++ [.str s] ++ qs)
        | _ =>
            match blocksParts rest with
            | .error e => .error e
            | .ok qs => .ok (p1 ++ qs)
    | _ =>
        match blocksParts rest with
        | .error e => .error e
        | .ok qs => .ok qs
termination_by sizeOf blocks
decreasing_by
  all_goals first
    | (have h1 := lookupField_sizeOf hcontent
       simp at h1 ⊢
       try omega)
    | (simp
       try omega)

/-- `RovoDevClient._extract_text_from_adf`: join the collected parts. -/
def extractTextFromAdf (blocks : List Json) : Except PyErr String :=
  match blocksParts blocks with
  | .error e => .error e
  | .ok ps => pyJoin ps

/-- Shape 1 of `_parse_response`: `if "message" in data and
isinstance(data["message"], dict): return data["message"].get("content",
str(data))`.  `.ok none` means "did not return, fall through". -/
def shape1 (data : Json) : Except PyErr (Option Json) :=
  match pyContains data "message" with
  | .error e => .error e
  | .ok false => .ok none
  | .ok true =>
      match pySubscriptKey data "message" with
      | .error e => .error e
      | .ok (.obj m) => .ok (some ((lookupField m "content").getD (.str (pyStr data))))
      | .ok _ => .ok none

/-- Shape 2: the `choices` branch (OpenAI-compatible responses). -/
def shape2 (data : Json) : Except PyErr (Option Json) :=
  match pyContains data "choices" with
  | .error e => .error e
  | .ok false => .ok none
  | .ok true =>
      match pySubscriptKey data "choices" with
      | .error e => .error e
      | .ok cs =>
          if truthy cs then
            match pySubscript0 cs with
            | .error e => .error e
            | .ok choice =>
                match pyContains choice "message" with
                | .error e => .error e
                | .ok true =>
                    match pySubscriptKey choice "message" with
                    | .error e => .error e
                    | .ok m =>
                        match pyGetMethod m "content" (.str (pyStr choice)) with
                        | .error e => .error e
                        | .ok v => .ok (some v)
                | .ok false =>
                    match pyContains choice "text" with
                    | .error e => .error e
                    | .ok true =>
                        match pySubscriptKey choice "text" with
                        | .error e => .error e
                        | .ok v => .ok (some v)
                    | .ok false => .ok none
          else .ok none

/-- Shape 3: a flat `content` field — returned directly if a string,
recursively joined if a list, otherwise fallen through. -/
def shape3 (data : Json) : Except PyErr (Option Json) :=
  match pyContains data "content" with
  | .error e => .error e
  | .ok false => .ok none
  | .ok true =>
      match pySubscriptKey data "content" with
      | .error e => .error e
      | .ok (.str s) => .ok (some (.str s))
      | .ok (.arr l) =>
          match extractTextFromAdf l with
          | .error e => .error e
          | .ok s => .ok (some (.str s))
      | .ok _ => .ok none

/-- Shapes 4 and 5: a flat `response` / `text` field passed through
`str()`. -/
def shapeFlat (key : String) (data : Json) : Except PyErr (Option Json) :=
  match pyContains data key with
  | .error e => .error e
  | .ok false => .ok none
  | .ok true =>
      match pySubscriptKey data key with
      | .error e => .error e
      | .ok v => .ok (some (.str (pyStr v)))

/-- `RovoDevClient._parse_response` (rovo_client.py), for bodies that
parsed as JSON (the `except` branch returning `response.text.strip()` on a
JSON decode failure is outside the `Json` domain).  Shapes are tried in
the fixed source order; if none returns, the whole body is serialized
with `json.dumps(data, indent=2)`. -/
def rovoParseResponse (data : Json) : Except PyErr Json :=
  match shape1 data with
  | .error e => .error e
  | .ok (some r) => .ok r
  | .ok none =>
      match shape2 data with
      | .error e => .error e
      | .ok (some r) => .ok r
      | .ok none =>
          match shape3 data with
          | .error e => .error e
          | .ok (some r) => .ok r
          | .ok none =>
              match shapeFlat "response" data with
              | .error e => .error e
              | .ok (some r) => .ok r
              | .ok none =>
                  match shapeFlat "text" data with
                  | .error e => .error e
                  | .ok (some r) => .ok r
                  | .ok none => .ok (.str (jsonDumps data))

/- ----------------------------------------------------------------- -/
/- rovo_client.py / openrouter_client.py: status handling            -/
/- ----------------------------------------------------------------- -/

/-- The 401 message of `_call_agent` (rovo_client.py). -/
def rovoAuthMsg401 : String :=
  "Authentication failed (401). Check your ATLASSIAN_EMAIL and ATLASSIAN_API_KEY."

/-- The 403 message of `_call_agent` (rovo_client.py). -/
def rovoAuthMsg403 : String :=
  "Forbidden (403). Your account may not have access to Rovo Dev. " ++
  "Ensure Rovo is enabled for your Atlassian site."

/-- The status dispatch of `RovoDevClient._call_agent`: 401 and 403 raise
`RuntimeError` with credential-specific messages, any other non-200/201
status raises `RuntimeError` with a generic message, and a success status
hands the body to `_parse_response`. -/
def rovoCallAgent (status : Nat) (rawText : String) (body : Json) :
    Except PyErr Json :=
  if status = 401 then .error (.runtimeError rovoAuthMsg401)
  else if status = 403 then .error (.runtimeError rovoAuthMsg403)
  else if status ≠ 200 ∧ status ≠ 201 then
    .error (.runtimeError ("Rovo Dev API returned HTTP " ++ toString status ++
      ": " ++ takeStr rawText 500))
  else rovoParseResponse body

/-- `OpenRouterClient._call` status handling: every non-200 status,
including 401 and 403, raises the same generic `RuntimeError`; `content`
is the oracle for the successful extraction. -/
def openRouterCall (status : Nat) (respText : String) (content : String) :
    Except PyErr String :=
  if status ≠ 200 then
    .error (.runtimeError ("OpenRouter API returned HTTP " ++
      toString status ++ ": " ++ takeStr respText 300))
  else .ok content

/-- `RovoDevClient.chat` in the heap model: copy the history, append the
user turn to the copy, perform the call; an exception propagates before
the assistant turn is appended, and the list object of the caller is never
touched. -/
def rovoChatH (h : Heap) (hist : Nat) (msg : String)
    (callRes : Except PyErr String) : Except PyErr (String × Nat) × Heap :=
  let a := h.alloc (h.read hist)
  let h2 := a.1.push a.2 (userT msg)
  match callRes with
  | .error e => (.error e, h2)
  | .ok reply => (.ok (reply, a.2), h2.push a.2 (assistantT reply))

/- ----------------------------------------------------------------- -/
/- C5, C6: model selection                                           -/
/- ----------------------------------------------------------------- -/

theorem groqRun_id (c : GroqClientS)
    (calls : List (String × List Turn × String)) : groqRun c calls = c := by
  induction calls generalizing c with
  | nil => rfl
  | cons x xs ih => exact ih c

theorem xaiRun_id (c : XAIClientS)
    (calls : List (String × List Turn × String)) : xaiRun c calls = c := by
  induction calls generalizing c with
  | nil => rfl
  | cons x xs ih => exact ih c

/-- C6: model resolution happens exactly once, at adapter construction
(`mkGroqClient` / `mkXAIClient` are the only places `_pick_model` /
`_pick_best_model` are invoked, on the catalog answer observed then), and
the resolved id is never rewritten: after any sequence of `chat` calls the
client still carries the construction-time id, and a single `chat` step
returns the client state unchanged, so any two reads of the model id
agree regardless of how the catalog would answer later. -/
theorem model_resolved_once
    (gk gm : String) (gcat : Except String (List String))
    (gcalls : List (String × List Turn × String))
    (xk xm : String) (xcat : Except String (List String))
    (xcalls : List (String × List Turn × String))
    (c : GroqClientS) (x : XAIClientS) (msg : String) (hist : List Turn)
    (reply : String) :
    (groqRun (mkGroqClient gk gm gcat) gcalls).model =
        groqPickModel (some gm) gcat ∧
    (xaiRun (mkXAIClient xk xm xcat) xcalls).model =
        (mkXAIClient xk xm xcat).model ∧
    (groqChatC c msg hist reply).2.2 = c ∧
    (xaiChatC x msg hist reply).2.2 = x := by
  refine ⟨?_, ?_, rfl, rfl⟩
  · rw [groqRun_id]; rfl
  · rw [xaiRun_id]

/-- C5 (amended): with the sentinel `"auto"`, the xAI selector returns the
first priority-list entry present in the catalog, else the
lexicographically smallest catalog entry, else (empty catalog or failed
query) the hard-coded `"grok-2-1212"`; the Groq selector returns the first
priority-list entry present, but on no match falls back to
`next(iter(available))` — the FIRST id in the set's iteration order, not
the lexicographically smallest — and on a failed query the hard-coded
first priority entry; the OpenRouter adapter performs no catalog query at
all and maps `"auto"` to its first priority entry. -/
theorem model_selector_auto_spec :
    (∀ (avail : List String) m,
        XAI_PREFERRED_MODELS.find? (fun p => avail.contains p) = some m →
        xaiPickBestModel (Except.ok avail) = m) ∧
    (∀ avail : List String,
        XAI_PREFERRED_MODELS.find? (fun p => avail.contains p) = none →
        avail ≠ [] →
        xaiPickBestModel (Except.ok avail) ∈ avail ∧
        ∀ x ∈ avail, xaiPickBestModel (Except.ok avail) ≤ x) ∧
    (∀ e, xaiPickBestModel (Except.error e) = "grok-2-1212") ∧
    (∀ (avail : List String) m,
        GROQ_PREFERRED_MODELS.find? (fun p => avail.contains p) = some m →
        groqAutoPick (Except.ok avail) = m) ∧
    (∀ (m : String) rest,
        GROQ_PREFERRED_MODELS.find? (fun p => (m :: rest).contains p) = none →
        groqAutoPick (Except.ok (m :: rest)) = m) ∧
    (∀ e, groqAutoPick (Except.error e) = GROQ_PREFERRED_MODELS[0]!) ∧
    openRouterResolveModel "auto" = PREFERRED_FREE_MODELS[0]! ∧
    (∀ m, m ≠ "auto" → openRouterResolveModel m = m) := by
  have htrans : ∀ a b c : String,
      decide (a ≤ b) = true → decide (b ≤ c) = true → decide (a ≤ c) = true := by
    intro a b c hab hbc
    simp only [decide_eq_true_eq] at *
    exact le_trans hab hbc
  have htot : ∀ a b : String, (decide (a ≤ b) || decide (b ≤ a)) = true := by
    intro a b
    simp only [Bool.or_eq_true, decide_eq_true_eq]
    exact le_total a b
  refine ⟨?_, ?_, fun e => rfl, ?_, ?_, fun e => rfl, rfl, ?_⟩
  · intro avail m hm
    simp only [xaiPickBestModel]
    rw [hm]
  · intro avail hnone hne
    simp only [xaiPickBestModel]
    rw [hnone]
    have hperm := List.mergeSort_perm avail (fun a b : String => decide (a ≤ b))
    have hsorted := List.sorted_mergeSort htrans htot avail
    cases hsort : avail.mergeSort (fun a b : String => decide (a ≤ b)) with
    | nil =>
        exfalso
        rw [hsort] at hperm
        exact hne hperm.symm.eq_nil
    | cons m rest =>
        rw [hsort] at hperm hsorted
        constructor
        · exact hperm.mem_iff.mp (List.mem_cons_self m rest)
        · intro x hx
          have hx2 : x ∈ m :: rest := hperm.mem_iff.mpr hx
          rcases List.mem_cons.mp hx2 with rfl | hxr
          · exact le_refl x
          · have := (List.pairwise_cons.mp hsorted).1 x hxr
            simpa using this
  · intro avail m hm
    simp only [groqAutoPick]
    rw [hm]
  · intro m rest hnone
    simp only [groqAutoPick]
    rw [hnone]
  · intro m hm
    simp only [openRouterResolveModel]
    rw [if_neg hm]

/-- C5 witness: the xAI selector at concrete catalogs — a priority match,
a no-match catalog resolved to its lexicographic minimum, and the failure
fallback; the OpenRouter sentinel map. -/
theorem model_selector_auto_spec_witness :
    XAI_PREFERRED_MODELS.find?
        (fun p => ["grok-2-1212", "other"].contains p) = some "grok-2-1212" ∧
    xaiPickBestModel (Except.ok ["grok-2-1212", "other"]) = "grok-2-1212" ∧
    XAI_PREFERRED_MODELS.find? (fun p => ["m2", "m1"].contains p) = none ∧
    (xaiPickBestModel (Except.ok ["m2", "m1"]) ∈ ["m2", "m1"] ∧
      ∀ x ∈ ["m2", "m1"], xaiPickBestModel (Except.ok ["m2", "m1"]) ≤ x) ∧
    xaiPickBestModel (Except.error "down") = "grok-2-1212" ∧
    groqAutoPick (Except.error "down") = GROQ_PREFERRED_MODELS[0]! ∧
    openRouterResolveModel "auto" = PREFERRED_FREE_MODELS[0]! ∧
    openRouterResolveModel "my-model" = "my-model" := by
  have h := model_selector_auto_spec
  refine ⟨rfl, h.1 _ _ rfl, rfl, h.2.1 _ rfl (by simp),
    h.2.2.1 "down", h.2.2.2.2.2.1 "down", h.2.2.2.2.2.2.1, ?_⟩
  exact h.2.2.2.2.2.2.2 "my-model" (by simp)

/-- C5 counterexample: on a catalog with no priority match, the Groq
selector returns the head of the iteration order, not the lexicographic
minimum, and two iteration orders of the SAME catalog set give different
answers — the result is neither the lexicographically smallest id nor
deterministic in the set. -/
theorem groq_auto_pick_not_lex_min :
    groqAutoPick (Except.ok ["zz-model", "aa-model"]) = "zz-model" ∧
    groqAutoPick (Except.ok ["aa-model", "zz-model"]) = "aa-model" ∧
    (["zz-model", "aa-model"] : List String).Perm ["aa-model", "zz-model"] ∧
    ("aa-model" : String) < "zz-model" := by
  refine ⟨rfl, rfl, List.Perm.swap _ _ _, ?_⟩
  rw [String.lt_iff_toList_lt]
  decide

/- ----------------------------------------------------------------- -/
/- C2: history stores only text                                      -/
/- ----------------------------------------------------------------- -/

theorem set_concat_generic {α : Type} (l : List α) (x y : α) :
    (l ++ [x]).set l.length y = l ++ [y] := by
  rw [List.set_append]
  simp

theorem groqChatWithFile_snd (c : GroqClientS) (msg name : String)
    (bytes : List Nat) (mime : String) (history : List Turn) (reply : String) :
    (groqChatWithFile c msg name bytes mime history reply).2 =
      history ++ [userT (msg ++ "\n[File: " ++ name ++ "]"),
                  assistantT reply] := by
  unfold groqChatWithFile
  have hl : (history ++
      [(⟨Role.user, groqBuildFileContent c.model msg name bytes mime⟩ : Turn)]).length - 1 =
      history.length := by simp
  simp only [hl, set_concat_generic]
  simp

/-- C2 (amended): for the Gemini, Groq and Rovo adapters,
`chat_with_file` keeps every turn of the returned history a plain string
(given a plain-string input history): Gemini and Rovo store a text
summary, and Groq replaces its multimodal turn with a text summary before
appending the reply.  (The OpenRouter and xAI adapters do NOT satisfy
this: their vision paths leave the native `image_url` block list in the
returned history — see the counterexample.) -/
theorem chat_with_file_history_text_only
    (c : GroqClientS) (msg name : String) (bytes : List Nat) (mime : String)
    (history : List Turn) (reply : String)
    (hh : history.all Turn.isStr = true) :
    ((groqChatWithFile c msg name bytes mime history reply).2.all
        Turn.isStr = true) ∧
    ((geminiChatWithFile msg name history reply).2.all Turn.isStr = true) ∧
    ((rovoChatWithFile msg name bytes mime history reply).2.all
        Turn.isStr = true) := by
  refine ⟨?_, ?_, ?_⟩
  · rw [groqChatWithFile_snd]
    simp [List.all_append, hh, userT, assistantT, Turn.isStr]
  · unfold geminiChatWithFile
    simp [List.all_append, hh, userT, assistantT, Turn.isStr]
  · unfold rovoChatWithFile
    simp [List.all_append, hh, userT, assistantT, Turn.isStr]

/-- C2 witness: a concrete image upload through the Groq, Gemini and Rovo
adapters, starting from the empty (trivially all-text) history. -/
theorem chat_with_file_history_text_only_witness :
    (([] : List Turn).all Turn.isStr = true) ∧
    (((groqChatWithFile ⟨"k", "llama-3.3-70b-versatile"⟩ "hi" "a.png"
        [1, 2, 3] "image/png" [] "ok").2.all Turn.isStr = true) ∧
     ((geminiChatWithFile "hi" "a.png" [] "ok").2.all Turn.isStr = true) ∧
     ((rovoChatWithFile "hi" "a.png" [1, 2, 3] "image/png" [] "ok").2.all
        Turn.isStr = true)) :=
  ⟨rfl, chat_with_file_history_text_only ⟨"k", "llama-3.3-70b-versatile"⟩
    "hi" "a.png" [1, 2, 3] "image/png" [] "ok" rfl⟩

/-- C2 counterexample: `OpenRouterClient.chat_with_file` with an image
attachment returns a history whose user turn is the provider-native block
list, including the `image_url` block carrying the base64-encoded bytes —
not a plain string. -/
theorem openrouter_history_stores_native_blocks :
    (openRouterChatWithFile "hi" "a.png" [1, 2, 3] "image/png" [] "ok").2 =
      [⟨Role.user, Content.blocks
         [Block.text "hi",
          Block.imageUrl "data:image/png;base64,AQID"]⟩,
       assistantT "ok"] ∧
    ((openRouterChatWithFile "hi" "a.png" [1, 2, 3] "image/png" [] "ok").2.all
        Turn.isStr) = false := by
  exact ⟨by decide, by decide⟩

/- ----------------------------------------------------------------- -/
/- C4: image attachments on non-vision models                        -/
/- ----------------------------------------------------------------- -/

/-- C4 (amended): for an image attachment and a non-vision model, the xAI
adapter builds a text-only payload that does not depend on the image bytes
at all — it states the model does not support vision and suggests
switching models (it does not ask the user to describe the image); the
Groq adapter emits text that does ask the user to describe the image, but
embeds the first 500 characters of the base64 encoding of the image bytes
in that payload (so the payload is NOT free of encoded bytes). -/
theorem nonvision_image_payload
    (x : XAIClientS) (msg name : String) (bytes bytes2 : List Nat)
    (mime : String) (history : List Turn) (reply : String)
    (c : GroqClientS)
    (hmime : startsWithS mime "image/" = true)
    (hxnv : x.model ∉ XAI_VISION_MODELS)
    (gmime : mime ∈ GROQ_IMAGE_MIME_TYPES)
    (gnv : c.model ∉ GROQ_VISION_MODELS)
    (gext : toLowerS (pathSuffix name) ∉ GROQ_TEXT_EXTENSIONS) :
    xaiChatWithFile x msg name bytes mime history reply =
      xaiChat (msg ++ "\n\n[Image '" ++ name ++
        "' uploaded but current model '" ++ x.model ++
        "' does not support vision. Switch to grok-2-vision-1212.]")
        history reply ∧
    xaiChatWithFile x msg name bytes mime history reply =
      xaiChatWithFile x msg name bytes2 mime history reply ∧
    groqBuildFileContent c.model msg name bytes mime =
      Content.str (msg ++ "\n\n[Image file: " ++ name ++ "]\ndata:" ++ mime ++
        ";base64," ++ takeStr (base64Encode bytes) 500 ++
        "... (truncated for non-vision model)\n" ++
        "Please note: this model doesn't support images natively. " ++
        "Describe what you'd like to know about this image.") := by
  have hx : xaiChatWithFile x msg name bytes mime history reply =
      xaiChat (msg ++ "\n\n[Image '" ++ name ++
        "' uploaded but current model '" ++ x.model ++
        "' does not support vision. Switch to grok-2-vision-1212.]")
        history reply := by
    unfold xaiChatWithFile
    rw [if_pos hmime, if_neg hxnv]
  have hx2 : xaiChatWithFile x msg name bytes2 mime history reply =
      xaiChat (msg ++ "\n\n[Image '" ++ name ++
        "' uploaded but current model '" ++ x.model ++
        "' does not support vision. Switch to grok-2-vision-1212.]")
        history reply := by
    unfold xaiChatWithFile
    rw [if_pos hmime, if_neg hxnv]
  have hnotext : startsWithS mime "text/" = false := by
    simp only [GROQ_IMAGE_MIME_TYPES, List.mem_cons, List.mem_singleton] at gmime
    rcases gmime with rfl | rfl | rfl | rfl | h
    · decide
    · decide
    · decide
    · decide
    · simp at h
  refine ⟨hx, hx.trans hx2.symm, ?_⟩
  unfold groqBuildFileContent
  rw [if_neg (by
    intro hand
    exact gnv hand.2)]
  rw [if_neg (by
    intro hor
    rcases hor with hext | htext
    · exact gext hext
    · rw [hnotext] at htext
      exact Bool.false_ne_true htext)]
  rw [if_pos gmime]

set_option maxRecDepth 40000 in
/-- C4 witness: a concrete PNG on non-vision Groq and xAI models. -/
theorem nonvision_image_payload_witness :
    (startsWithS "image/png" "image/" = true) ∧
    (("grok-2-1212" : String) ∉ XAI_VISION_MODELS) ∧
    ("image/png" ∈ GROQ_IMAGE_MIME_TYPES) ∧
    (("llama-3.3-70b-versatile" : String) ∉ GROQ_VISION_MODELS) ∧
    (toLowerS (pathSuffix "pic.png") ∉ GROQ_TEXT_EXTENSIONS) ∧
    (xaiChatWithFile ⟨"k", "grok-2-1212"⟩ "hi" "pic.png" [1, 2, 3]
        "image/png" [] "ok" =
      xaiChat ("hi" ++ "\n\n[Image '" ++ "pic.png" ++
        "' uploaded but current model '" ++ "grok-2-1212" ++
        "' does not support vision. Switch to grok-2-vision-1212.]")
        [] "ok" ∧
     xaiChatWithFile ⟨"k", "grok-2-1212"⟩ "hi" "pic.png" [1, 2, 3]
        "image/png" [] "ok" =
      xaiChatWithFile ⟨"k", "grok-2-1212"⟩ "hi" "pic.png" [9, 9, 9]
        "image/png" [] "ok" ∧
     groqBuildFileContent "llama-3.3-70b-versatile" "hi" "pic.png" [1, 2, 3]
        "image/png" =
      Content.str ("hi" ++ "\n\n[Image file: " ++ "pic.png" ++ "]\ndata:" ++
        "image/png" ++ ";base64," ++ takeStr (base64Encode [1, 2, 3]) 500 ++
        "... (truncated for non-vision model)\n" ++
        "Please note: this model doesn't support images natively. " ++
        "Describe what you'd like to know about this image.")) :=
  ⟨by decide, by decide, by decide, by decide, by decide,
   nonvision_image_payload ⟨"k", "grok-2-1212"⟩ "hi" "pic.png" [1, 2, 3]
     [9, 9, 9] "image/png" [] "ok" ⟨"k2", "llama-3.3-70b-versatile"⟩
     (by decide) (by decide) (by decide) (by decide) (by decide)⟩

set_option maxRecDepth 40000 in
/-- C4 counterexample: on a non-vision Groq model the built payload for a
3-byte PNG literally contains the full base64 encoding `"AQID"` of the
image bytes — the claim that no raw or base64-encoded image bytes appear
is false. -/
theorem groq_nonvision_image_embeds_bytes :
    groqBuildFileContent "llama-3.3-70b-versatile" "hi" "pic.png" [1, 2, 3]
        "image/png" =
      Content.str ("hi" ++ "\n\n[Image file: pic.png]\ndata:image/png;base64," ++
        "AQID" ++ "... (truncated for non-vision model)\n" ++
        "Please note: this model doesn't support images natively. " ++
        "Describe what you'd like to know about this image.") ∧
    (match groqBuildFileContent "llama-3.3-70b-versatile" "hi" "pic.png"
        [1, 2, 3] "image/png" with
     | Content.str s => subOf (base64Encode [1, 2, 3]).data s.data
     | Content.blocks _ => false) = true := by
  exact ⟨by decide, by decide⟩

/- ----------------------------------------------------------------- -/
/- C3: text truncation                                               -/
/- ----------------------------------------------------------------- -/

theorem geminiBuildParts_text_long (msg name : String) (bytes : List Nat)
    (mime : String) (htext : isTextMime mime = true)
    (hlong : (utf8Decode bytes).length > 30000) :
    geminiBuildParts msg name bytes mime =
      [GPart.text (msg ++ "\n\n--- FILE: " ++ name ++ " ---\n```\n" ++
        (takeStr (utf8Decode bytes) 30000 ++ geminiTruncMarker) ++
        "\n```")] := by
  unfold geminiBuildParts
  rw [if_pos (Or.inl htext)]
  have hc : (utf8Decode bytes).length > MAX_FILE_TEXT_CHARS := by
    simpa [MAX_FILE_TEXT_CHARS] using hlong
  simp only [hc, if_true, MAX_FILE_TEXT_CHARS]
  rw [if_pos hlong]

theorem openRouterChatWithFile_text_long (msg name : String)
    (bytes : List Nat) (mime : String) (history : List Turn) (reply : String)
    (hni : ¬(mime ≠ "" ∧ startsWithS mime "image/"))
    (hlong : (utf8Decode bytes).length > 12000) :
    (openRouterChatWithFile msg name bytes mime history reply).2 =
      history ++ [userT (msg ++ "\n\n--- File: " ++ name ++ " ---\n" ++
        takeStr (utf8Decode bytes) 12000 ++ "\n\n[... file truncated, " ++
        toString (utf8Decode bytes).length ++ " chars total ...]"),
        assistantT reply] := by
  unfold openRouterChatWithFile
  rw [if_neg hni]
  simp only [hlong, if_true]

/-- C3 (amended): for a textual attachment whose decoded text exceeds the
provider ceiling, the built payload contains the text truncated to exactly
the ceiling number of characters followed by an explicit truncation
marker — but only the OpenRouter marker states the original
(pre-truncation) length; the Gemini marker states the 30000-character
ceiling instead of the original length (see the counterexample). -/
theorem text_truncation_spec (msg name : String) (bytes : List Nat)
    (mime : String)
    (omsg oname : String) (obytes : List Nat) (omime : String)
    (ohistory : List Turn) (oreply : String)
    (htext : isTextMime mime = true)
    (hlong : (utf8Decode bytes).length > 30000)
    (honi : ¬(omime ≠ "" ∧ startsWithS omime "image/"))
    (holong : (utf8Decode obytes).length > 12000) :
    geminiBuildParts msg name bytes mime =
      [GPart.text (msg ++ "\n\n--- FILE: " ++ name ++ " ---\n```\n" ++
        (takeStr (utf8Decode bytes) 30000 ++ geminiTruncMarker) ++
        "\n```")] ∧
    (takeStr (utf8Decode bytes) 30000).length = 30000 ∧
    (openRouterChatWithFile omsg oname obytes omime ohistory oreply).2 =
      ohistory ++ [userT (omsg ++ "\n\n--- File: " ++ oname ++ " ---\n" ++
        takeStr (utf8Decode obytes) 12000 ++ "\n\n[... file truncated, " ++
        toString (utf8Decode obytes).length ++ " chars total ...]"),
        assistantT oreply] ∧
    (takeStr (utf8Decode obytes) 12000).length = 12000 := by
  refine ⟨geminiBuildParts_text_long msg name bytes mime htext hlong, ?_,
    openRouterChatWithFile_text_long omsg oname obytes omime ohistory oreply
      honi holong, ?_⟩
  · show (List.take 30000 (utf8Decode bytes).data).length = 30000
    rw [List.length_take]
    have : (utf8Decode bytes).data.length > 30000 := hlong
    omega
  · show (List.take 12000 (utf8Decode obytes).data).length = 12000
    rw [List.length_take]
    have : (utf8Decode obytes).data.length > 12000 := holong
    omega

theorem utf8Decode_replicate_a (n : Nat) :
    utf8Decode (List.replicate n 97) = String.mk (List.replicate n 'a') := by
  unfold utf8Decode
  rw [utf8DecodeReplace_ascii _ (by
    intro b hb
    rw [List.eq_of_mem_replicate hb]
    decide)]
  rw [List.map_replicate]

/-- C3 witness: a 30001-character text file on Gemini, a 12001-character
text file on OpenRouter. -/
theorem text_truncation_spec_witness :
    (isTextMime "text/plain" = true) ∧
    ((utf8Decode (List.replicate 30001 97)).length > 30000) ∧
    (¬("text/plain" ≠ "" ∧ startsWithS "text/plain" "image/")) ∧
    ((utf8Decode (List.replicate 12001 97)).length > 12000) ∧
    (geminiBuildParts "hi" "a.txt" (List.replicate 30001 97) "text/plain" =
      [GPart.text ("hi" ++ "\n\n--- FILE: " ++ "a.txt" ++ " ---\n```\n" ++
        (takeStr (utf8Decode (List.replicate 30001 97)) 30000 ++
          geminiTruncMarker) ++ "\n```")] ∧
     (takeStr (utf8Decode (List.replicate 30001 97)) 30000).length = 30000 ∧
     (openRouterChatWithFile "ho" "b.txt" (List.replicate 12001 97)
        "text/plain" [] "ok").2 =
      [] ++ [userT ("ho" ++ "\n\n--- File: " ++ "b.txt" ++ " ---\n" ++
        takeStr (utf8Decode (List.replicate 12001 97)) 12000 ++
        "\n\n[... file truncated, " ++
        toString (utf8Decode (List.replicate 12001 97)).length ++
        " chars total ...]"), assistantT "ok"] ∧
     (takeStr (utf8Decode (List.replicate 12001 97)) 12000).length = 12000) := by
  have h1 : (utf8Decode (List.replicate 30001 97)).length > 30000 := by
    rw [utf8Decode_replicate_a]
    show (List.replicate 30001 'a').length > 30000
    rw [List.length_replicate]
    omega
  have h2 : (utf8Decode (List.replicate 12001 97)).length > 12000 := by
    rw [utf8Decode_replicate_a]
    show (List.replicate 12001 'a').length > 12000
    rw [List.length_replicate]
    omega
  exact ⟨by decide, h1, by decide, h2,
    text_truncation_spec "hi" "a.txt" (List.replicate 30001 97) "text/plain"
      "ho" "b.txt" (List.replicate 12001 97) "text/plain" [] "ok"
      (by decide) h1 (by decide) h2⟩

/-- C3 counterexample: at original length 30001 the Gemini payload is the
30000-character prefix followed by the fixed marker; the marker names the
ceiling `30000` and does not contain the original length `30001` —
contradicting the claim that the marker states the original length.  (The
rest of the payload is the instruction text, the file-name header, 30001
letters `a` and fences — no other digits.) -/
theorem gemini_marker_states_ceiling :
    geminiBuildParts "hi" "a.txt" (List.replicate 30001 97) "text/plain" =
      [GPart.text ("hi" ++ "\n\n--- FILE: " ++ "a.txt" ++ " ---\n```\n" ++
        (String.mk (List.replicate 30000 'a') ++ geminiTruncMarker) ++
        "\n```")] ∧
    subOf "30000".data geminiTruncMarker.data = true ∧
    subOf "30001".data geminiTruncMarker.data = false := by
  have h1 : (utf8Decode (List.replicate 30001 97)).length > 30000 := by
    rw [utf8Decode_replicate_a]
    show (List.replicate 30001 'a').length > 30000
    rw [List.length_replicate]
    omega
  have heq := geminiBuildParts_text_long "hi" "a.txt" (List.replicate 30001 97)
    "text/plain" (by decide) h1
  have htake : takeStr (utf8Decode (List.replicate 30001 97)) 30000 =
      String.mk (List.replicate 30000 'a') := by
    rw [utf8Decode_replicate_a]
    show String.mk (List.take 30000 (List.replicate 30001 'a')) = _
    rw [List.take_replicate]
    norm_num
  rw [htake] at heq
  exact ⟨heq, by decide, by decide⟩

/- ----------------------------------------------------------------- -/
/- C9: oversized opaque binaries                                     -/
/- ----------------------------------------------------------------- -/

/-- C9: for an opaque-binary attachment whose base64 encoding exceeds the
500000-character hard ceiling, both the Gemini and the Rovo payload
builders return the textual size refusal naming the attachment byte count
(with thousands separators), and the refusal is built from the
instruction text, file name and byte count only — it contains none of the
encoded bytes.  (For Rovo the ceiling is checked on the whole data URI,
whose length strictly exceeds the base64 length, so an encoding longer
than the ceiling always triggers the refusal.) -/
theorem opaque_binary_size_refusal (msg name : String) (bytes : List Nat)
    (mime : String)
    (hnt : isTextMime mime = false)
    (hnext : lastExt name ∉ CODE_EXTENSIONS)
    (hni : mime ∉ GEMINI_IMAGE_MIME_TYPES)
    (hnd : mime ∉ GEMINI_DOCUMENT_MIME_TYPES)
    (hbig : (base64Encode bytes).length > 500000) :
    geminiBuildParts msg name bytes mime =
      [GPart.text (msg ++ "\n\n⚠️ The file '" ++ name ++
        "' is too large to send (" ++ formatComma bytes.length ++
        " bytes). Please try a smaller file.")] ∧
    rovoBuildFileMessage msg name bytes mime =
      msg ++ "\n\n⚠️ The file <" ++ name ++
        "> is too large to send in full (" ++ formatComma bytes.length ++
        " bytes). Please try a smaller file." := by
  have hcond : ¬(isTextMime mime = true ∨ lastExt name ∈ CODE_EXTENSIONS) := by
    intro hor
    rcases hor with ht | he
    · rw [hnt] at ht
      exact Bool.false_ne_true ht
    · exact hnext he
  constructor
  · unfold geminiBuildParts
    rw [if_neg hcond, if_neg hni, if_neg hnd, if_pos hbig]
  · unfold rovoBuildFileMessage
    rw [if_neg hcond]
    rw [if_pos (show ("data:" ++ mime ++ ";base64," ++
        base64Encode bytes).length > 500000 by
      simp only [String.length_append]
      omega)]

/-- C9 witness: a 375001-byte opaque binary (base64 length 500004). -/
theorem opaque_binary_size_refusal_witness :
    (isTextMime "application/zip" = false) ∧
    (lastExt "big.zip" ∉ CODE_EXTENSIONS) ∧
    ("application/zip" ∉ GEMINI_IMAGE_MIME_TYPES) ∧
    ("application/zip" ∉ GEMINI_DOCUMENT_MIME_TYPES) ∧
    ((base64Encode (List.replicate 375001 0)).length > 500000) ∧
    (geminiBuildParts "hi" "big.zip" (List.replicate 375001 0)
        "application/zip" =
      [GPart.text ("hi" ++ "\n\n⚠️ The file '" ++ "big.zip" ++
        "' is too large to send (" ++
        formatComma (List.replicate 375001 (0 : Nat)).length ++
        " bytes). Please try a smaller file.")] ∧
     rovoBuildFileMessage "hi" "big.zip" (List.replicate 375001 0)
        "application/zip" =
      "hi" ++ "\n\n⚠️ The file <" ++ "big.zip" ++
        "> is too large to send in full (" ++
        formatComma (List.replicate 375001 (0 : Nat)).length ++
        " bytes). Please try a smaller file.") := by
  have hbig : (base64Encode (List.replicate 375001 (0 : Nat))).length > 500000 := by
    rw [base64Encode_length, List.length_replicate]
    omega
  exact ⟨by decide, by decide, by decide, by decide, hbig,
    opaque_binary_size_refusal "hi" "big.zip" (List.replicate 375001 0)
      "application/zip" (by decide) (by decide) (by decide) (by decide) hbig⟩

/- ----------------------------------------------------------------- -/
/- C8: 401/403 handling                                              -/
/- ----------------------------------------------------------------- -/

/-- The exception class of a failed call result (`"ok"` on success). -/
def errKindOf (r : Except PyErr Json) : String :=
  match r with
  | Except.error e => e.kind
  | Except.ok _ => "ok"

/-- C8 (amended): on HTTP 401 or 403 `converse` raises: the Rovo client
raises `RuntimeError` with a credential-specific message (401 and 403 get
dedicated texts), and the OpenRouter client raises its one generic
`RuntimeError` used for every non-200 status — in both clients the error
is the same exception kind (`RuntimeError`) as the general request
failure, not a distinct `AuthError` kind.  The exception propagates
before the assistant turn is appended, and no mutation of the list object
passed by the caller is observable: every pre-existing heap cell reads
the same after the failed call. -/
theorem auth_status_errors (rawText : String) (body : Json) (h : Heap)
    (hist : Nat) (msg resp2 : String) (e : PyErr) (status : Nat)
    (hbad : status = 401 ∨ status = 403) :
    (rovoCallAgent status rawText body =
        Except.error (PyErr.runtimeError
          (if status = 401 then rovoAuthMsg401 else rovoAuthMsg403))) ∧
    (errKindOf (rovoCallAgent status rawText body) = "RuntimeError") ∧
    (openRouterCall status resp2 "x" =
        Except.error (PyErr.runtimeError ("OpenRouter API returned HTTP " ++
          toString status ++ ": " ++ takeStr resp2 300))) ∧
    ((rovoChatH h hist msg (Except.error e)).1 = Except.error e ∧
     ∀ i, i < h.length →
       ((rovoChatH h hist msg (Except.error e)).2).read i = h.read i) := by
  have hr : rovoCallAgent status rawText body =
      Except.error (PyErr.runtimeError
        (if status = 401 then rovoAuthMsg401 else rovoAuthMsg403)) := by
    rcases hbad with rfl | rfl
    · unfold rovoCallAgent
      rw [if_pos rfl, if_pos rfl]
    · unfold rovoCallAgent
      rw [if_neg (by omega), if_pos rfl, if_neg (by omega)]
  refine ⟨hr, ?_, ?_, ?_, ?_⟩
  · rw [hr]
    rfl
  · unfold openRouterCall
    rw [if_pos (by omega)]
  · rfl
  · intro i hi
    show ((h ++ [h.read hist]).push h.length (userT msg)).read i = h.read i
    rw [heap_push_concat]
    exact heap_read_append_old h _ i hi

/-- C8 witness: status 401 on concrete inputs. -/
theorem auth_status_errors_witness :
    ((401 : Nat) = 401 ∨ (401 : Nat) = 403) ∧
    ((rovoCallAgent 401 "" Json.null =
        Except.error (PyErr.runtimeError
          (if (401 : Nat) = 401 then rovoAuthMsg401 else rovoAuthMsg403))) ∧
     (errKindOf (rovoCallAgent 401 "" Json.null) = "RuntimeError") ∧
     (openRouterCall 401 "" "x" =
        Except.error (PyErr.runtimeError ("OpenRouter API returned HTTP " ++
          toString (401 : Nat) ++ ": " ++ takeStr "" 300))) ∧
     ((rovoChatH [[]] 0 "Hello" (Except.error
          (PyErr.runtimeError rovoAuthMsg401))).1 =
        Except.error (PyErr.runtimeError rovoAuthMsg401) ∧
      ∀ i, i < ([[]] : Heap).length →
        ((rovoChatH [[]] 0 "Hello" (Except.error
            (PyErr.runtimeError rovoAuthMsg401))).2).read i =
          Heap.read [[]] i)) :=
  ⟨Or.inl rfl,
   auth_status_errors "" Json.null [[]] 0 "Hello" ""
     (PyErr.runtimeError rovoAuthMsg401) 401 (Or.inl rfl)⟩

/-- C8 counterexample: the 401 error and the generic 500 error are the
SAME exception kind — plain `RuntimeError` in both clients (and
OpenRouter even uses its one generic message format for 401) — so there
is no `AuthError` kind distinct from the general request failure. -/
theorem no_distinct_auth_error_kind :
    rovoCallAgent 401 "" Json.null =
      Except.error (PyErr.runtimeError rovoAuthMsg401) ∧
    rovoCallAgent 500 "" Json.null =
      Except.error (PyErr.runtimeError ("Rovo Dev API returned HTTP 500: ")) ∧
    PyErr.kind (PyErr.runtimeError rovoAuthMsg401) =
      PyErr.kind (PyErr.runtimeError ("Rovo Dev API returned HTTP 500: ")) ∧
    openRouterCall 401 "" "x" =
      Except.error (PyErr.runtimeError ("OpenRouter API returned HTTP 401: ")) ∧
    openRouterCall 500 "" "x" =
      Except.error (PyErr.runtimeError ("OpenRouter API returned HTTP 500: ")) := by
  exact ⟨rfl, rfl, rfl, rfl, rfl⟩

/- ----------------------------------------------------------------- -/
/- C7: the response normalizer                                       -/
/- ----------------------------------------------------------------- -/

/-- Whether the `text` field a block would contribute is a string (the
only way `"".join` can later succeed). -/
def textFieldOk (fs : List (String × Json)) : Bool :=
  if (match lookupField fs "type" with
      | some (.str t) => t == "text"
      | _ => false) then
    match (lookupField fs "text").getD (.str "") with
    | .str _ => true
    | _ => false
  else true

mutual

/-- Well-typedness of ADF-style content: every (transitively) nested block
contributes only string parts. -/
def adfOkJ : Json → Bool
  | .obj fs => textFieldOk fs && adfOkFields fs
  | .arr xs => adfOkList xs
  | _ => true

def adfOkList : List Json → Bool
  | [] => true
  | x :: rest => adfOkJ x && adfOkList rest

def adfOkFields : List (String × Json) → Bool
  | [] => true
  | (_, v) :: rest => adfOkJ v && adfOkFields rest

end

/-- Well-typedness of the first choice: a dict whose `message` field, when
present, is itself a dict (so `.get` exists). -/
def choiceOk (c : Json) : Bool :=
  match c with
  | .obj cfs =>
      match lookupField cfs "message" with
      | some (.obj _) => true
      | some _ => false
      | none => true
  | _ => false

/-- Well-typedness of a truthy `choices` field: a non-empty array whose
first element is a well-typed choice. -/
def choicesOk (fs : List (String × Json)) : Bool :=
  match lookupField fs "choices" with
  | none => true
  | some cs =>
      if truthy cs then
        match cs with
        | .arr (c :: _) => choiceOk c
        | _ => false
      else true

/-- Well-typedness of a list-valued `content` field. -/
def contentOk (fs : List (String × Json)) : Bool :=
  match lookupField fs "content" with
  | some (.arr l) => adfOkList l
  | _ => true

/-- A well-typed response body: a JSON object whose `choices` and
`content` fields (when present) have the types the parser destructures
them with. -/
def wfBody : Json → Bool
  | .obj fs => choicesOk fs && contentOk fs
  | _ => false

theorem lookupField_adfOk {fs : List (String × Json)} {key : String}
    {v : Json} (hl : lookupField fs key = some v)
    (hok : adfOkFields fs = true) : adfOkJ v = true := by
  induction fs with
  | nil => simp [lookupField] at hl
  | cons p rest ih =>
      obtain ⟨k, w⟩ := p
      rw [adfOkFields] at hok
      simp only [Bool.and_eq_true] at hok
      by_cases hk : k = key
      · rw [lookupField, if_pos hk] at hl
        cases hl
        exact hok.1
      · rw [lookupField, if_neg hk] at hl
        exact ih hl hok.2

theorem allStrs_map (ss : List String) :
    allStrs (ss.map Json.str) = some ss := by
  induction ss with
  | nil => rfl
  | cons s rest ih => simp [allStrs, asStr, ih]

theorem pyJoin_map_str (ss : List String) :
    pyJoin (ss.map Json.str) = Except.ok (String.join ss) := by
  unfold pyJoin
  rw [allStrs_map]

theorem blocksParts_cons_skip (block : Json) (rest : List Json)
    (h : ∀ fs, block ≠ Json.obj fs) :
    blocksParts (block :: rest) = blocksParts rest := by
  rw [blocksParts.eq_def]
  cases block with
  | obj fs => exact absurd rfl (h fs)
  | null => cases hr : blocksParts rest <;> simp [hr]
  | bool b => cases hr : blocksParts rest <;> simp [hr]
  | num n => cases hr : blocksParts rest <;> simp [hr]
  | str s => cases hr : blocksParts rest <;> simp [hr]
  | arr xs => cases hr : blocksParts rest <;> simp [hr]

theorem blocksParts_cons_obj_content (fs : List (String × Json))
    (rest l : List Json) (hc : lookupField fs "content" = some (Json.arr l)) :
    blocksParts (Json.obj fs :: rest) =
      match blocksParts l with
      | Except.error e => Except.error e
      | Except.ok ps =>
          match pyJoin ps with
          | Except.error e => Except.error e
          | Except.ok s =>
              match blocksParts rest with
              | Except.error e => Except.error e
              | Except.ok qs =>
                  Except.ok (blockTextPart fs ++ [Json.str s] ++ qs) := by
  rw [blocksParts.eq_def]
  dsimp only
  split
  · rename_i l2 heq
    rw [hc] at heq
    cases heq
    rfl
  · rename_i hne
    exact absurd hc (hne l)

theorem blocksParts_cons_obj_plain (fs : List (String × Json))
    (rest : List Json)
    (hc : ∀ l, lookupField fs "content" ≠ some (Json.arr l)) :
    blocksParts (Json.obj fs :: rest) =
      match blocksParts rest with
      | Except.error e => Except.error e
      | Except.ok qs => Except.ok (blockTextPart fs ++ qs) := by
  rw [blocksParts.eq_def]
  dsimp only
  split
  · rename_i l heq
    exact absurd heq (hc l)
  · rfl

theorem blockTextPart_str (fs : List (String × Json))
    (htf : textFieldOk fs = true) :
    ∃ ss : List String, blockTextPart fs = ss.map Json.str := by
  unfold blockTextPart
  unfold textFieldOk at htf
  by_cases hcond : (match lookupField fs "type" with
      | some (.str t) => t == "text"
      | _ => false) = true
  · rw [if_pos hcond]
    rw [if_pos hcond] at htf
    cases hv : (lookupField fs "text").getD (Json.str "") with
    | str s => exact ⟨[s], rfl⟩
    | null => rw [hv] at htf; simp at htf
    | bool b => rw [hv] at htf; simp at htf
    | num n => rw [hv] at htf; simp at htf
    | arr xs => rw [hv] at htf; simp at htf
    | obj f2 => rw [hv] at htf; simp at htf
  · rw [if_neg hcond]
    exact ⟨[], rfl⟩

theorem blocksParts_strings :
    ∀ (n : Nat) (blocks : List Json), sizeOf blocks ≤ n →
      adfOkList blocks = true →
      ∃ ss : List String, blocksParts blocks = Except.ok (ss.map Json.str) := by
  intro n
  induction n with
  | zero =>
      intro blocks hsz _
      cases blocks with
      | nil => exact ⟨[], by rw [blocksParts.eq_def]; rfl⟩
      | cons b r => simp at hsz
  | succ n ih =>
      intro blocks hsz hok
      cases blocks with
      | nil => exact ⟨[], by rw [blocksParts.eq_def]; rfl⟩
      | cons block rest =>
          rw [adfOkList] at hok
          simp only [Bool.and_eq_true] at hok
          obtain ⟨hb, hr⟩ := hok
          have hszr : sizeOf rest ≤ n := by
            simp at hsz
            omega
          obtain ⟨ss2, hss2⟩ := ih rest hszr hr
          cases block with
          | obj fs =>
              rw [adfOkJ] at hb
              simp only [Bool.and_eq_true] at hb
              obtain ⟨htf, hfs⟩ := hb
              obtain ⟨ss1, hss1⟩ := blockTextPart_str fs htf
              cases hcl : lookupField fs "content" with
              | none =>
                  refine ⟨ss1 ++ ss2, ?_⟩
                  rw [blocksParts_cons_obj_plain fs rest
                    (by intro l h2; rw [hcl] at h2; cases h2)]
                  rw [hss2]
                  dsimp only
                  rw [hss1, List.map_append]
              | some v =>
                  cases v with
                  | arr l =>
                      have hadf : adfOkJ (Json.arr l) = true :=
                        lookupField_adfOk hcl hfs
                      rw [adfOkJ] at hadf
                      have hszl : sizeOf l ≤ n := by
                        have h1 := lookupField_sizeOf hcl
                        simp at h1 hsz
                        omega
                      obtain ⟨ssl, hssl⟩ := ih l hszl hadf
                      refine ⟨ss1 ++ [String.join ssl] ++ ss2, ?_⟩
                      rw [blocksParts_cons_obj_content fs rest l hcl]
                      rw [hssl]
                      dsimp only
                      rw [pyJoin_map_str]
                      dsimp only
                      rw [hss2]
                      dsimp only
                      rw [hss1]
                      simp
                  | null =>
                      refine ⟨ss1 ++ ss2, ?_⟩
                      rw [blocksParts_cons_obj_plain fs rest
                        (by intro l h2; rw [hcl] at h2; cases h2)]
                      rw [hss2]
                      dsimp only
                      rw [hss1, List.map_append]
                  | bool b2 =>
                      refine ⟨ss1 ++ ss2, ?_⟩
                      rw [blocksParts_cons_obj_plain fs rest
                        (by intro l h2; rw [hcl] at h2; cases h2)]
                      rw [hss2]
                      dsimp only
                      rw [hss1, List.map_append]
                  | num n2 =>
                      refine ⟨ss1 ++ ss2, ?_⟩
                      rw [blocksParts_cons_obj_plain fs rest
                        (by intro l h2; rw [hcl] at h2; cases h2)]
                      rw [hss2]
                      dsimp only
                      rw [hss1, List.map_append]
                  | str s2 =>
                      refine ⟨ss1 ++ ss2, ?_⟩
                      rw [blocksParts_cons_obj_plain fs rest
                        (by intro l h2; rw [hcl] at h2; cases h2)]
                      rw [hss2]
                      dsimp only
                      rw [hss1, List.map_append]
                  | obj f2 =>
                      refine ⟨ss1 ++ ss2, ?_⟩
                      rw [blocksParts_cons_obj_plain fs rest
                        (by intro l h2; rw [hcl] at h2; cases h2)]
                      rw [hss2]
                      dsimp only
                      rw [hss1, List.map_append]
          | null =>
              exact ⟨ss2, by
                rw [blocksParts_cons_skip _ _ (by intro fs h2; cases h2), hss2]⟩
          | bool b =>
              exact ⟨ss2, by
                rw [blocksParts_cons_skip _ _ (by intro fs h2; cases h2), hss2]⟩
          | num n2 =>
              exact ⟨ss2, by
                rw [blocksParts_cons_skip _ _ (by intro fs h2; cases h2), hss2]⟩
          | str s =>
              exact ⟨ss2, by
                rw [blocksParts_cons_skip _ _ (by intro fs h2; cases h2), hss2]⟩
          | arr xs =>
              exact ⟨ss2, by
                rw [blocksParts_cons_skip _ _ (by intro fs h2; cases h2), hss2]⟩

/-- A well-typed ADF content list always joins to a string. -/
theorem extractTextFromAdf_ok (l : List Json) (hok : adfOkList l = true) :
    ∃ s, extractTextFromAdf l = Except.ok s := by
  obtain ⟨ss, hss⟩ := blocksParts_strings (sizeOf l) l (Nat.le_refl _) hok
  refine ⟨String.join ss, ?_⟩
  unfold extractTextFromAdf
  rw [hss]
  dsimp only
  rw [pyJoin_map_str]

theorem shape1_ok (fs : List (String × Json)) :
    ∃ r, shape1 (Json.obj fs) = Except.ok r := by
  cases hl : lookupField fs "message" with
  | none => exact ⟨none, by simp [shape1, pyContains, hl]⟩
  | some v =>
      cases v with
      | obj m =>
          exact ⟨some ((lookupField m "content").getD
            (Json.str (pyStr (Json.obj fs)))),
            by simp [shape1, pyContains, pySubscriptKey, hl]⟩
      | null => exact ⟨none, by simp [shape1, pyContains, pySubscriptKey, hl]⟩
      | bool b => exact ⟨none, by simp [shape1, pyContains, pySubscriptKey, hl]⟩
      | num n => exact ⟨none, by simp [shape1, pyContains, pySubscriptKey, hl]⟩
      | str s => exact ⟨none, by simp [shape1, pyContains, pySubscriptKey, hl]⟩
      | arr xs => exact ⟨none, by simp [shape1, pyContains, pySubscriptKey, hl]⟩

theorem shape2_ok (fs : List (String × Json)) (hch : choicesOk fs = true) :
    ∃ r, shape2 (Json.obj fs) = Except.ok r := by
  unfold choicesOk at hch
  cases hl : lookupField fs "choices" with
  | none => exact ⟨none, by simp [shape2, pyContains, hl]⟩
  | some cs =>
      rw [hl] at hch
      dsimp only at hch
      by_cases ht : truthy cs = true
      · rw [if_pos ht] at hch
        cases cs with
        | arr xs =>
            cases xs with
            | nil => simp at hch
            | cons c restc =>
                cases c with
                | obj cfs =>
                    cases hm : lookupField cfs "message" with
                    | none =>
                        cases htx : lookupField cfs "text" with
                        | none =>
                            exact ⟨none, by
                              simp [shape2, pyContains, pySubscriptKey,
                                pySubscript0, hl, ht, hm, htx]⟩
                        | some tv =>
                            exact ⟨some tv, by
                              simp [shape2, pyContains, pySubscriptKey,
                                pySubscript0, hl, ht, hm, htx]⟩
                    | some mv =>
                        dsimp only at hch
                        rw [choiceOk.eq_def] at hch
                        dsimp only at hch
                        rw [hm] at hch
                        cases mv with
                        | obj mfs =>
                            exact ⟨some ((lookupField mfs "content").getD
                                (Json.str (pyStr (Json.obj cfs)))),
                              by simp [shape2, pyContains, pySubscriptKey,
                                pySubscript0, pyGetMethod, hl, ht, hm]⟩
                        | null => simp at hch
                        | bool b => simp at hch
                        | num n => simp at hch
                        | str s => simp at hch
                        | arr ys => simp at hch
                | null => simp [choiceOk] at hch
                | bool b => simp [choiceOk] at hch
                | num n => simp [choiceOk] at hch
                | str s => simp [choiceOk] at hch
                | arr ys => simp [choiceOk] at hch
        | null => simp [truthy] at ht
        | bool b => simp at hch
        | num n => simp at hch
        | str s => simp at hch
        | obj ofs => simp at hch
      · have ht2 : truthy cs = false := by
          cases h2 : truthy cs
          · rfl
          · exact absurd h2 ht
        exact ⟨none, by simp [shape2, pyContains, pySubscriptKey, hl, ht2]⟩

theorem shape3_ok (fs : List (String × Json)) (hco : contentOk fs = true) :
    ∃ r, shape3 (Json.obj fs) = Except.ok r := by
  unfold contentOk at hco
  cases hl : lookupField fs "content" with
  | none => exact ⟨none, by simp [shape3, pyContains, hl]⟩
  | some v =>
      rw [hl] at hco
      cases v with
      | str s =>
          exact ⟨some (Json.str s),
            by simp [shape3, pyContains, pySubscriptKey, hl]⟩
      | arr l =>
          dsimp only at hco
          obtain ⟨s, hs⟩ := extractTextFromAdf_ok l hco
          exact ⟨some (Json.str s),
            by simp [shape3, pyContains, pySubscriptKey, hl, hs]⟩
      | null => exact ⟨none, by simp [shape3, pyContains, pySubscriptKey, hl]⟩
      | bool b => exact ⟨none, by simp [shape3, pyContains, pySubscriptKey, hl]⟩
      | num n => exact ⟨none, by simp [shape3, pyContains, pySubscriptKey, hl]⟩
      | obj f2 => exact ⟨none, by simp [shape3, pyContains, pySubscriptKey, hl]⟩

theorem shapeFlat_ok (key : String) (fs : List (String × Json)) :
    ∃ r, shapeFlat key (Json.obj fs) = Except.ok r := by
  cases hl : lookupField fs key with
  | none => exact ⟨none, by simp [shapeFlat, pyContains, hl]⟩
  | some v =>
      exact ⟨some (Json.str (pyStr v)),
        by simp [shapeFlat, pyContains, pySubscriptKey, hl]⟩

theorem jsonDumps_obj_ne_empty (fs : List (String × Json)) :
    jsonDumps (Json.obj fs) ≠ "" := by
  unfold jsonDumps
  rw [jsonDumps2.eq_def]
  cases fs with
  | nil =>
      dsimp only
      intro h
      have := congrArg String.length h
      simp [String.length] at this
  | cons p rest =>
      dsimp only
      intro h
      have := congrArg String.length h
      simp only [String.length_append] at this
      have h0 : ("".length : Nat) = 0 := rfl
      rw [h0] at this
      have h2 : ("\u007B\n" : String).length = 2 := rfl
      omega

theorem rovoParse_total (data : Json) (hwf : wfBody data = true) :
    ∃ r, rovoParseResponse data = Except.ok r := by
  cases data with
  | obj fs =>
      rw [wfBody] at hwf
      simp only [Bool.and_eq_true] at hwf
      obtain ⟨hch, hco⟩ := hwf
      obtain ⟨r1, h1⟩ := shape1_ok fs
      obtain ⟨r2, h2⟩ := shape2_ok fs hch
      obtain ⟨r3, h3⟩ := shape3_ok fs hco
      obtain ⟨r4, h4⟩ := shapeFlat_ok "response" fs
      obtain ⟨r5, h5⟩ := shapeFlat_ok "text" fs
      unfold rovoParseResponse
      rw [h1]
      cases r1 with
      | some r => exact ⟨r, rfl⟩
      | none =>
          dsimp only
          rw [h2]
          cases r2 with
          | some r => exact ⟨r, rfl⟩
          | none =>
              dsimp only
              rw [h3]
              cases r3 with
              | some r => exact ⟨r, rfl⟩
              | none =>
                  dsimp only
                  rw [h4]
                  cases r4 with
                  | some r => exact ⟨r, rfl⟩
                  | none =>
                      dsimp only
                      rw [h5]
                      cases r5 with
                      | some r => exact ⟨r, rfl⟩
                      | none => exact ⟨Json.str (jsonDumps (Json.obj fs)), rfl⟩
  | null => simp [wfBody] at hwf
  | bool b => simp [wfBody] at hwf
  | num n => simp [wfBody] at hwf
  | str s => simp [wfBody] at hwf
  | arr xs => simp [wfBody] at hwf

/-- C7 (amended): for well-typed response bodies (a JSON object whose
`choices` field, when present and truthy, is a non-empty array with a
well-typed first choice, and whose list-valued `content` blocks carry
string `text` fields) the normalizer follows the documented precedence —
nested `message.content` first, then the choices array (`message.content`
or `text` of the first choice), then a flat `content` field (string or
recursively joined block list), then flat `response`/`text` — and on a
body matching none of the shapes it returns the non-empty
`json.dumps` serialization of the whole body; on such bodies
normalization never raises.  (On ill-typed bodies it CAN raise — e.g. a
truthy non-list `choices` value causes a TypeError; see the
counterexample — so "normalization never fails" is false in general.) -/
theorem response_normalizer_spec :
    (∀ data, wfBody data = true → ∃ r, rovoParseResponse data = Except.ok r) ∧
    (∀ fs m v, lookupField fs "message" = some (Json.obj m) →
        lookupField m "content" = some v →
        rovoParseResponse (Json.obj fs) = Except.ok v) ∧
    (∀ fs cfs mfs restc v,
        lookupField fs "message" = none →
        lookupField fs "choices" = some (Json.arr (Json.obj cfs :: restc)) →
        lookupField cfs "message" = some (Json.obj mfs) →
        lookupField mfs "content" = some v →
        rovoParseResponse (Json.obj fs) = Except.ok v) ∧
    (∀ fs cfs restc v,
        lookupField fs "message" = none →
        lookupField fs "choices" = some (Json.arr (Json.obj cfs :: restc)) →
        lookupField cfs "message" = none →
        lookupField cfs "text" = some v →
        rovoParseResponse (Json.obj fs) = Except.ok v) ∧
    (∀ fs s, lookupField fs "message" = none →
        lookupField fs "choices" = none →
        lookupField fs "content" = some (Json.str s) →
        rovoParseResponse (Json.obj fs) = Except.ok (Json.str s)) ∧
    (∀ fs l s, lookupField fs "message" = none →
        lookupField fs "choices" = none →
        lookupField fs "content" = some (Json.arr l) →
        extractTextFromAdf l = Except.ok s →
        rovoParseResponse (Json.obj fs) = Except.ok (Json.str s)) ∧
    (∀ fs v, lookupField fs "message" = none →
        lookupField fs "choices" = none →
        lookupField fs "content" = none →
        lookupField fs "response" = some v →
        rovoParseResponse (Json.obj fs) = Except.ok (Json.str (pyStr v))) ∧
    (∀ fs v, lookupField fs "message" = none →
        lookupField fs "choices" = none →
        lookupField fs "content" = none →
        lookupField fs "response" = none →
        lookupField fs "text" = some v →
        rovoParseResponse (Json.obj fs) = Except.ok (Json.str (pyStr v))) ∧
    (∀ fs, lookupField fs "message" = none →
        lookupField fs "choices" = none →
        lookupField fs "content" = none →
        lookupField fs "response" = none →
        lookupField fs "text" = none →
        rovoParseResponse (Json.obj fs) =
          Except.ok (Json.str (jsonDumps (Json.obj fs))) ∧
        jsonDumps (Json.obj fs) ≠ "") := by
  refine ⟨rovoParse_total, ?_, ?_, ?_, ?_, ?_, ?_, ?_, ?_⟩
  · intro fs m v hm hc
    have h1 : shape1 (Json.obj fs) = Except.ok (some v) := by
      simp [shape1, pyContains, pySubscriptKey, hm, hc]
    unfold rovoParseResponse
    rw [h1]
  · intro fs cfs mfs restc v hm hch hcm hcc
    have h1 : shape1 (Json.obj fs) = Except.ok none := by
      simp [shape1, pyContains, hm]
    have h2 : shape2 (Json.obj fs) = Except.ok (some v) := by
      simp [shape2, pyContains, pySubscriptKey, pySubscript0, pyGetMethod,
        truthy, hch, hcm, hcc]
    unfold rovoParseResponse
    rw [h1]
    dsimp only
    rw [h2]
  · intro fs cfs restc v hm hch hcm hct
    have h1 : shape1 (Json.obj fs) = Except.ok none := by
      simp [shape1, pyContains, hm]
    have h2 : shape2 (Json.obj fs) = Except.ok (some v) := by
      simp [shape2, pyContains, pySubscriptKey, pySubscript0, truthy,
        hch, hcm, hct]
    unfold rovoParseResponse
    rw [h1]
    dsimp only
    rw [h2]
  · intro fs s hm hch hc
    have h1 : shape1 (Json.obj fs) = Except.ok none := by
      simp [shape1, pyContains, hm]
    have h2 : shape2 (Json.obj fs) = Except.ok none := by
      simp [shape2, pyContains, hch]
    have h3 : shape3 (Json.obj fs) = Except.ok (some (Json.str s)) := by
      simp [shape3, pyContains, pySubscriptKey, hc]
    unfold rovoParseResponse
    rw [h1]
    dsimp only
    rw [h2]
    dsimp only
    rw [h3]
  · intro fs l s hm hch hc hx
    have h1 : shape1 (Json.obj fs) = Except.ok none := by
      simp [shape1, pyContains, hm]
    have h2 : shape2 (Json.obj fs) = Except.ok none := by
      simp [shape2, pyContains, hch]
    have h3 : shape3 (Json.obj fs) = Except.ok (some (Json.str s)) := by
      simp [shape3, pyContains, pySubscriptKey, hc, hx]
    unfold rovoParseResponse
    rw [h1]
    dsimp only
    rw [h2]
    dsimp only
    rw [h3]
  · intro fs v hm hch hc hr
    have h1 : shape1 (Json.obj fs) = Except.ok none := by
      simp [shape1, pyContains, hm]
    have h2 : shape2 (Json.obj fs) = Except.ok none := by
      simp [shape2, pyContains, hch]
    have h3 : shape3 (Json.obj fs) = Except.ok none := by
      simp [shape3, pyContains, hc]
    have h4 : shapeFlat "response" (Json.obj fs) =
        Except.ok (some (Json.str (pyStr v))) := by
      simp [shapeFlat, pyContains, pySubscriptKey, hr]
    unfold rovoParseResponse
    rw [h1]
    dsimp only
    rw [h2]
    dsimp only
    rw [h3]
    dsimp only
    rw [h4]
  · intro fs v hm hch hc hr ht
    have h1 : shape1 (Json.obj fs) = Except.ok none := by
      simp [shape1, pyContains, hm]
    have h2 : shape2 (Json.obj fs) = Except.ok none := by
      simp [shape2, pyContains, hch]
    have h3 : shape3 (Json.obj fs) = Except.ok none := by
      simp [shape3, pyContains, hc]
    have h4 : shapeFlat "response" (Json.obj fs) = Except.ok none := by
      simp [shapeFlat, pyContains, hr]
    have h5 : shapeFlat "text" (Json.obj fs) =
        Except.ok (some (Json.str (pyStr v))) := by
      simp [shapeFlat, pyContains, pySubscriptKey, ht]
    unfold rovoParseResponse
    rw [h1]
    dsimp only
    rw [h2]
    dsimp only
    rw [h3]
    dsimp only
    rw [h4]
    dsimp only
    rw [h5]
  · intro fs hm hch hc hr ht
    have h1 : shape1 (Json.obj fs) = Except.ok none := by
      simp [shape1, pyContains, hm]
    have h2 : shape2 (Json.obj fs) = Except.ok none := by
      simp [shape2, pyContains, hch]
    have h3 : shape3 (Json.obj fs) = Except.ok none := by
      simp [shape3, pyContains, hc]
    have h4 : shapeFlat "response" (Json.obj fs) = Except.ok none := by
      simp [shapeFlat, pyContains, hr]
    have h5 : shapeFlat "text" (Json.obj fs) = Except.ok none := by
      simp [shapeFlat, pyContains, ht]
    refine ⟨?_, jsonDumps_obj_ne_empty fs⟩
    unfold rovoParseResponse
    rw [h1]
    dsimp only
    rw [h2]
    dsimp only
    rw [h3]
    dsimp only
    rw [h4]
    dsimp only
    rw [h5]

/-- C7 witness: a shape-1 body, a choices body and a flat-text body. -/
theorem response_normalizer_spec_witness :
    (wfBody (Json.obj [("message", Json.obj [("content", Json.str "hi")])]) =
      true) ∧
    (∃ r, rovoParseResponse
        (Json.obj [("message", Json.obj [("content", Json.str "hi")])]) =
      Except.ok r) ∧
    (rovoParseResponse
        (Json.obj [("message", Json.obj [("content", Json.str "hi")])]) =
      Except.ok (Json.str "hi")) ∧
    (rovoParseResponse
        (Json.obj [("choices", Json.arr [Json.obj
          [("message", Json.obj [("content", Json.str "yo")])]])]) =
      Except.ok (Json.str "yo")) ∧
    (rovoParseResponse (Json.obj [("text", Json.str "flat")]) =
      Except.ok (Json.str "flat")) :=
  ⟨by decide,
   response_normalizer_spec.1 _ (by decide),
   response_normalizer_spec.2.1 [("message", Json.obj [("content", Json.str "hi")])]
     [("content", Json.str "hi")] (Json.str "hi") rfl rfl,
   response_normalizer_spec.2.2.1
     [("choices", Json.arr [Json.obj
       [("message", Json.obj [("content", Json.str "yo")])]])]
     [("message", Json.obj [("content", Json.str "yo")])]
     [("content", Json.str "yo")] [] (Json.str "yo") rfl rfl rfl rfl,
   response_normalizer_spec.2.2.2.2.2.2.2.1 [("text", Json.str "flat")]
     (Json.str "flat") rfl rfl rfl rfl rfl⟩

/-- C7 counterexample: the body `{"choices": 5}` matches none of the
documented shapes, yet `_parse_response` raises a `TypeError`
(`data["choices"][0]` on an integer) instead of returning the diagnostic
serialization — normalization CAN fail, refuting "normalization never
fails" for arbitrary bodies. -/
theorem rovo_parse_raises_on_truthy_nonlist_choices :
    rovoParseResponse (Json.obj [("choices", Json.num 5)]) =
      Except.error (PyErr.typeError "object is not subscriptable") ∧
    errKindOf (rovoParseResponse (Json.obj [("choices", Json.num 5)])) =
      "TypeError" := by
  exact ⟨rfl, rfl⟩
